import Mathlib

/-!
Shallow embedding of the LambdaLogAnalysis analysis/autotune engine.

Conventions used throughout this development:
* JavaScript numbers are modelled as `ℚ`.  `NaN` / missing values are
  modelled as `Option ℚ` where the source guards with `isFinite`/`isNaN`;
  where the source coerces with `parseFloat(x) || 0` (so `NaN` becomes `0`)
  the value is modelled as a plain `ℚ` with `0` playing the invalid role,
  exactly as the source then treats `0`.
* The `window.tuneFileParser` calibration model is an external collaborator
  (it is not part of the analysis sources); analyzers receive its answers as
  explicit parameters, mirroring the calls they make.
* Event `index` fields are the row indices maintained by the source loops.
* UI rendering, console logging and display-string formatting
  (`toFixed`-based descriptions) are presentation only and are not part of
  the embedded state.
-/

namespace LogAnalysis

/-! ## Shared grouping utility

`AnalyzerUtils.groupEventsByTime` (src/renderer/AnalyzerUtils.js lines
59-88): sort events by time, then chain-merge: an event joins the current
group iff its time is within `timeWindow` of the *last* event already in the
group; otherwise the group is finalized through `createGroupedEvent` and a
new group starts.  `KnockDetector.groupKnockEvents`,
`AFRAnalyzer.groupEventsByType` and `FuelTrimAnalyzer.groupEventsByType`
are verbatim copies of the same loop; `LoadLimitAnalyzer` and `IAMAnalyzer`
additionally require the joining event to have the same `eventType` as the
last group member.
-/

variable {α : Type} {β : Type}

/-- Stable insertion used to model `Array.prototype.sort((a, b) => a.time - b.time)`
(ES2019 sort is stable; equal times keep their original order). -/
def insertByTime (time : α → ℚ) (e : α) : List α → List α
  | [] => [e]
  | a :: as => if time a < time e then a :: insertByTime time e as else e :: a :: as

/-- Stable sort by the `time` field. -/
def sortByTime (time : α → ℚ) (l : List α) : List α :=
  l.foldr (insertByTime time) []

/-- Chaining loop of `groupEventsByTime`: `pending` are the not yet visited
events, `lastE` is the last event of the current group, `acc` is the current
group in reverse order (including `lastE`). -/
def groupChainAux (time : α → ℚ) (w : ℚ) (f : List α → β) :
    List α → α → List α → List β
  | [], _, acc => [f acc.reverse]
  | e :: rest, lastE, acc =>
    if time e - time lastE ≤ w then groupChainAux time w f rest e (e :: acc)
    else f acc.reverse :: groupChainAux time w f rest e [e]

/-- `AnalyzerUtils.groupEventsByTime(events, timeWindow, createGroupedEvent)`. -/
def groupEventsByTime (time : α → ℚ) (events : List α) (w : ℚ) (f : List α → β) :
    List β :=
  match sortByTime time events with
  | [] => []
  | e :: rest => groupChainAux time w f rest e [e]

/-- Chaining loop of the typed grouping used by `LoadLimitAnalyzer.groupLoadLimitEvents`
and `IAMAnalyzer.groupIAMEvents`: merging additionally requires equal `eventType`. -/
def groupTypedChainAux (time : α → ℚ) (etype : α → String) (w : ℚ) (f : List α → β) :
    List α → α → List α → List β
  | [], _, acc => [f acc.reverse]
  | e :: rest, lastE, acc =>
    if time e - time lastE ≤ w ∧ etype e = etype lastE then
      groupTypedChainAux time etype w f rest e (e :: acc)
    else f acc.reverse :: groupTypedChainAux time etype w f rest e [e]

/-- Grouping by time window and event type (same-type chaining). -/
def groupEventsByTimeAndType (time : α → ℚ) (etype : α → String) (events : List α)
    (w : ℚ) (f : List α → β) : List β :=
  match sortByTime time events with
  | [] => []
  | e :: rest => groupTypedChainAux time etype w f rest e [e]

/-! ## Knock severity (src/analysis/knockDetector.js) -/

/-- Severity thresholds set in the `KnockDetector` constructor
(knockDetector.js lines 6-10), in negative degrees. -/
structure KnockThresholds where
  critical : ℚ
  severe : ℚ
  moderate : ℚ
deriving DecidableEq

def knockSeverityThresholds : KnockThresholds := ⟨-6, -4, -2⟩

/-- Low-load sensitivity threshold in g/rev (knockDetector.js line 15,
`getKnockParameters().sensitivityLowLoad` default). -/
def knockSensitivityLowLoad : ℚ := 81/100

/-- Candidate threshold: knock retard must be more negative than this
(knockDetector.js line 128). -/
def knockCandidateThreshold : ℚ := -1/10000

/-- Grouping window of the knock detector in seconds (knockDetector.js line 11). -/
def knockGroupingTimeWindow : ℚ := 1/10

/-- `KnockDetector.categorizeSeverity(knockRetard, load)` (knockDetector.js
lines 256-281).  At low load the three thresholds are raised by `0.5`. -/
def categorizeSeverity (knockRetard : ℚ) (load : ℚ) : String :=
  let adjustedThreshold : ℚ := if load < knockSensitivityLowLoad then 1/2 else 0
  if knockRetard < knockSeverityThresholds.critical + adjustedThreshold then "critical"
  else if knockRetard < knockSeverityThresholds.severe + adjustedThreshold then "severe"
  else if knockRetard < knockSeverityThresholds.moderate + adjustedThreshold then "moderate"
  else "mild"

/-! ## Boost error severity (src/analysis/boostControlAnalyzer.js) -/

/-- Default four-tier boost error thresholds in kPa (boostControlAnalyzer.js
line 15). -/
def boostErrorThresholds : List ℚ := [203/10, 117/10, 53/10, 21/10]

/-- `BoostControlAnalyzer.classifyErrorSeverity(error)` (boostControlAnalyzer.js
lines 34-41), over a threshold list (the calibration may override the default). -/
def classifyErrorSeverity (error : ℚ) (thresholds : List ℚ) : String :=
  let absError := |error|
  if absError > thresholds.getD 0 0 then "critical"
  else if absError > thresholds.getD 1 0 then "severe"
  else if absError > thresholds.getD 2 0 then "moderate"
  else if absError > thresholds.getD 3 0 then "mild"
  else "normal"

/-! ## Autotune axis binning (src/unnamed/part_004) -/

/-- Linear scan of the JS loop in `axisIndex` (part_004 lines 34-40): the
first index whose axis entry is strictly greater than `value`, or the axis
length when there is none (this is `np.searchsorted(axis, value, "right")`). -/
def insertIdxAux (value : ℚ) : List ℚ → ℕ
  | [] => 0
  | a :: rest => if value < a then 0 else insertIdxAux value rest + 1

/-- `axisIndex(value, axis, clamp)` (part_004 lines 14-43).  `none` models the
JS `null` result (empty axis, or out of range with `clamp === false`); the
NaN guard is outside the model since the inputs are `ℚ`. -/
def axisIndex (value : ℚ) (axis : List ℚ) (clamp : Bool := true) : Option ℕ :=
  match axis with
  | [] => none
  | a0 :: rest =>
    if value < a0 then (if clamp then some 0 else none)
    else if value > (a0 :: rest).getLastD a0 then
      (if clamp then some ((a0 :: rest).length - 1) else none)
    else
      some (min (insertIdxAux value (a0 :: rest) - 1) ((a0 :: rest).length - 1))

/-! ## Autotune engine (src/unnamed/part_004, `AutotuneEngine.analyze`)

One datalog row as consumed by the engine.  Each field models
`parseFloat(row[column])`; `none` stands for a missing / non-numeric value
(JS `NaN`), matching the `isFinite` guards of the source.
-/

structure AutotuneRow where
  rpm : Option ℚ
  load : Option ℚ
  lambdaActual : Option ℚ
  lambdaTarget : Option ℚ
  throttle : Option ℚ
  stft : Option ℚ
  ltft : Option ℚ
  mafVoltage : Option ℚ
deriving DecidableEq

/-- Calibration data the engine reads through `window.tuneFileParser.getArray`
and `getTable` (part_004 lines 198-204).  `mafVoltageAxisRaw` is the first
non-empty candidate array, `[]` when the tune file has none. -/
structure AutotuneCalib where
  rpmAxis : List ℚ
  loadAxis : List ℚ
  fuelBase : List (List ℚ)
  peEnableLoad : List ℚ
  peEnableTps : List ℚ
  mafScale : List ℚ
  mafVoltageAxisRaw : List ℚ
deriving DecidableEq

/-- Rounding used by `voltage.toFixed(3)` when synthesizing the default MAF
voltage axis (part_004 line 79): round to three decimals, half away from
zero (all generated values are nonnegative). -/
def roundTo3 (v : ℚ) : ℚ := (⌊v * 1000 + 1/2⌋ : ℤ) / 1000

/-- `buildDefaultMafVoltageAxis(length)` (part_004 lines 68-82): a linear
0..5 V axis with `length` points. -/
def buildDefaultMafVoltageAxis (length : ℕ) : List ℚ :=
  if length < 1 then []
  else if length = 1 then [0]
  else (List.range length).map fun i => roundTo3 (i * (5 / ((length : ℚ) - 1)))

/-- `getMafVoltageAxis` (part_004 lines 84-105): use the tune file's axis when
present, else synthesize the default. -/
def getMafVoltageAxis (calib : AutotuneCalib) (expectedLength : ℕ) : List ℚ :=
  if calib.mafVoltageAxisRaw.length ≠ 0 then calib.mafVoltageAxisRaw
  else buildDefaultMafVoltageAxis expectedLength

/-- `calculateAxisWeight(value, idx, axis)` (part_004 lines 116-149):
triangular weight, `1` at the bin center, decaying to `0` at the edges. -/
def calculateAxisWeight (value : ℚ) (idx : ℕ) (axis : List ℚ) : ℚ :=
  if axis.length < 2 then 1
  else
    let lower := if idx = 0 then axis.getD 0 0
      else if idx ≥ axis.length - 1 then axis.getD (axis.length - 2) 0
      else axis.getD idx 0
    let upper := if idx = 0 then axis.getD 1 0
      else if idx ≥ axis.length - 1 then axis.getD (axis.length - 1) 0
      else axis.getD (idx + 1) 0
    let binCenter := (lower + upper) / 2
    let halfWidth := (upper - lower) / 2
    if halfWidth ≤ 0 then 1
    else max 0 (1 - |value - binCenter| / halfWidth)

/-- `calculateCellWeight` (part_004 lines 163-167): product of the two axis
weights. -/
def calculateCellWeight (rpm load : ℚ) (rpmIdx loadIdx : ℕ)
    (rpmAxis loadAxis : List ℚ) : ℚ :=
  calculateAxisWeight rpm rpmIdx rpmAxis * calculateAxisWeight load loadIdx loadAxis

/-- Option normalization `Math.max(1, parseInt(options.minSamples || 5, 10))`
(part_004 line 170); `none`/`0` are falsy and fall back to `5`; `parseInt`
truncates toward zero. -/
def normMinSamples (o : Option ℚ) : ℤ :=
  let v : ℚ := match o with
    | none => 5
    | some x => if x = 0 then 5 else x
  max 1 (if v ≥ 0 then ⌊v⌋ else ⌈v⌉)

/-- Option normalization `Math.max(0, parseFloat(options.changeLimit || 5))`
(part_004 line 171). -/
def normChangeLimit (o : Option ℚ) : ℚ :=
  max 0 (match o with
    | none => 5
    | some x => if x = 0 then 5 else x)

/-- Option normalization
`Math.max(0, Math.min(1, parseFloat(options.minHitWeight || 0)))`
(part_004 line 172). -/
def normMinHitWeight (o : Option ℚ) : ℚ :=
  max 0 (min 1 ((o.getD 0)))

/-- Row validity filter (part_004 lines 305-309): rpm, load and both lambda
values must be finite. -/
def autotuneRowValid (row : AutotuneRow) : Bool :=
  row.rpm.isSome && row.load.isSome && row.lambdaActual.isSome && row.lambdaTarget.isSome

/-- Open/closed loop classification (part_004 lines 335-355): open loop iff
`load >= pe_enable_load[rpmIdx] && throttle >= pe_enable_tps[rpmIdx]`.  A
missing table entry acts as an `Infinity` threshold, and a `NaN` throttle
compares false, both forcing closed loop. -/
def isOpenLoopRow (calib : AutotuneCalib) (load : ℚ) (throttle : Option ℚ)
    (rpmIdx : ℕ) : Bool :=
  match calib.peEnableLoad.get? rpmIdx, calib.peEnableTps.get? rpmIdx, throttle with
  | some lt, some tt, some th => decide (load ≥ lt) && decide (th ≥ tt)
  | some _, some _, none => false
  | _, _, _ => false

/-- Weighted accumulator of one autotune bin (the
`{samples, totalWeight, weightedSum…}` objects of part_004). -/
structure BinEntry where
  samples : ℕ
  totalWeight : ℚ
  weightedSum : ℚ
deriving DecidableEq

def BinEntry.empty : BinEntry := ⟨0, 0, 0⟩

def BinEntry.add (e : BinEntry) (weight value : ℚ) : BinEntry :=
  ⟨e.samples + 1, e.totalWeight + weight, e.weightedSum + value * weight⟩

/-- The open-loop contribution of one row to fuel-base cell `(r, l)`
(part_004 lines 297-393): the row must be valid, bin to `(r, l)`, classify
open loop, have positive target and measured lambda, and its cell weight
must reach `minHitWeight`; the accumulated value is `λ_actual / λ_target`.
Returns `none` when the row does not contribute. -/
def openContribution (calib : AutotuneCalib) (minHitWeight : ℚ) (r l : ℕ)
    (row : AutotuneRow) : Option (ℚ × ℚ) :=
  match row.rpm, row.load, row.lambdaActual, row.lambdaTarget with
  | some rpm, some load, some la, some lt =>
    match axisIndex rpm calib.rpmAxis, axisIndex load calib.loadAxis with
    | some rpmIdx, some loadIdx =>
      if rpmIdx = r ∧ loadIdx = l ∧
          isOpenLoopRow calib load row.throttle rpmIdx = true ∧ 0 < lt ∧ 0 < la then
        let w := calculateCellWeight rpm load rpmIdx loadIdx calib.rpmAxis calib.loadAxis
        if w < minHitWeight then none else some (w, la / lt)
      else none
    | _, _ => none
  | _, _, _, _ => none

/-- The closed-loop contribution of one row to fuel-base cell `(r, l)`
(part_004 lines 394-426): valid, binned to `(r, l)`, classified closed loop,
cell weight at least `minHitWeight`; the accumulated value is the combined
trim `stft + ltft` with missing trims treated as `0`. -/
def closedContribution (calib : AutotuneCalib) (minHitWeight : ℚ) (r l : ℕ)
    (row : AutotuneRow) : Option (ℚ × ℚ) :=
  match row.rpm, row.load, row.lambdaActual, row.lambdaTarget with
  | some rpm, some load, some _, some _ =>
    match axisIndex rpm calib.rpmAxis, axisIndex load calib.loadAxis with
    | some rpmIdx, some loadIdx =>
      if rpmIdx = r ∧ loadIdx = l ∧ isOpenLoopRow calib load row.throttle rpmIdx = false then
        let w := calculateCellWeight rpm load rpmIdx loadIdx calib.rpmAxis calib.loadAxis
        if w < minHitWeight then none
        else some (w, row.stft.getD 0 + row.ltft.getD 0)
      else none
    | _, _ => none
  | _, _, _, _ => none

/-- Fold the contributions of all rows into the accumulator of one bin.  The
source builds the same sums imperatively in the `openBins`/`closedBins`
objects keyed by `rpmIdx_loadIdx`; addition is accumulated in row order. -/
def accumulateBin (contrib : AutotuneRow → Option (ℚ × ℚ)) (rows : List AutotuneRow) :
    BinEntry :=
  rows.foldl (fun acc row =>
    match contrib row with
    | some (w, v) => acc.add w v
    | none => acc) BinEntry.empty

/-- Open-loop accumulator of fuel-base cell `(r, l)`. -/
def openBinAt (rows : List AutotuneRow) (calib : AutotuneCalib) (minHitWeight : ℚ)
    (r l : ℕ) : BinEntry :=
  accumulateBin (openContribution calib minHitWeight r l) rows

/-- Closed-loop accumulator of fuel-base cell `(r, l)`. -/
def closedBinAt (rows : List AutotuneRow) (calib : AutotuneCalib) (minHitWeight : ℚ)
    (r l : ℕ) : BinEntry :=
  accumulateBin (closedContribution calib minHitWeight r l) rows

/-- `fuelBaseTable[r][l] || 0` — the analyzed calibration's cell value with
JS falsy coercion (missing entries and `0` both read as `0`). -/
def fuelCellOrig (calib : AutotuneCalib) (r l : ℕ) : ℚ :=
  (calib.fuelBase.getD r []).getD l 0

/-- Open-loop per-cell suggestion (part_004 lines 429-451): cells with at
least `minSamples` raw samples suggest `current × weightedMeanRatio`. -/
def openSuggestionAt (rows : List AutotuneRow) (calib : AutotuneCalib)
    (minSamples : ℤ) (minHitWeight : ℚ) (r l : ℕ) : Option ℚ :=
  let e := openBinAt rows calib minHitWeight r l
  if (e.samples : ℤ) ≥ minSamples then
    let weightedMeanRatio := if 0 < e.totalWeight then e.weightedSum / e.totalWeight else 1
    some (fuelCellOrig calib r l * weightedMeanRatio)
  else none

/-- Closed-loop per-cell suggestion (part_004 lines 453-474):
`current × (1 + weightedMeanTrim / 100)`. -/
def closedSuggestionAt (rows : List AutotuneRow) (calib : AutotuneCalib)
    (minSamples : ℤ) (minHitWeight : ℚ) (r l : ℕ) : Option ℚ :=
  let e := closedBinAt rows calib minHitWeight r l
  if (e.samples : ℤ) ≥ minSamples then
    let weightedMeanTrim := if 0 < e.totalWeight then e.weightedSum / e.totalWeight else 0
    some (fuelCellOrig calib r l * (1 + weightedMeanTrim / 100))
  else none

/-- Merged per-cell suggestion (part_004 lines 520-530): the `modifications`
map is filled from `closedSummary` first and then overwritten by
`openSummary`, so an open-loop suggestion supersedes a closed-loop one. -/
def cellSuggestionAt (rows : List AutotuneRow) (calib : AutotuneCalib)
    (minSamples : ℤ) (minHitWeight : ℚ) (r l : ℕ) : Option ℚ :=
  match openSuggestionAt rows calib minSamples minHitWeight r l with
  | some s => some s
  | none => closedSuggestionAt rows calib minSamples minHitWeight r l

/-- The clamp of one applied modification (part_004 lines 536-571): percent
change from the *analysis* tune file's cell value, clamped to
`±changeLimit` when the limit is positive. -/
def clampSuggested (sourceOriginal suggested changeLimit : ℚ) : ℚ :=
  let changePct := (suggested - sourceOriginal) / sourceOriginal * 100
  if 0 < changeLimit ∧ changeLimit < |changePct| then
    if 0 < changePct then sourceOriginal * (1 + changeLimit / 100)
    else sourceOriginal * (1 - changeLimit / 100)
  else suggested

/-- Whether applying the suggestion records a clamped-modification entry in
`clampedDetails` (part_004 lines 550-567). -/
def clampRecorded (sourceOriginal suggested changeLimit : ℚ) : Bool :=
  let changePct := (suggested - sourceOriginal) / sourceOriginal * 100
  decide (0 < changeLimit) && decide (changeLimit < |changePct|)

/-- Final fuel-base output cell (part_004 lines 519-571): start from a clone
of the analyzed table; cells with a qualifying suggestion are overwritten
with the clamped value unless the analysis cell value is `0` (or non-finite,
outside this `ℚ` model), in which case the suggestion is discarded. -/
def fuelOutputCell (rows : List AutotuneRow) (calib : AutotuneCalib)
    (minSamples : ℤ) (changeLimit minHitWeight : ℚ) (r l : ℕ) : ℚ :=
  match cellSuggestionAt rows calib minSamples minHitWeight r l with
  | none => fuelCellOrig calib r l
  | some suggested =>
    let sourceOriginal := fuelCellOrig calib r l
    if sourceOriginal = 0 then fuelCellOrig calib r l
    else clampSuggested sourceOriginal suggested changeLimit

/-- Whether fuel-base cell `(r, l)` contributes a `clampedDetails` record. -/
def fuelClampRecorded (rows : List AutotuneRow) (calib : AutotuneCalib)
    (minSamples : ℤ) (changeLimit minHitWeight : ℚ) (r l : ℕ) : Bool :=
  match cellSuggestionAt rows calib minSamples minHitWeight r l with
  | none => false
  | some suggested =>
    let sourceOriginal := fuelCellOrig calib r l
    if sourceOriginal = 0 then false
    else clampRecorded sourceOriginal suggested changeLimit

/-- The full clamped fuel-base output table (`cloneTable` after the
modification pass). -/
def fuelOutputTable (rows : List AutotuneRow) (calib : AutotuneCalib)
    (minSamples : ℤ) (changeLimit minHitWeight : ℚ) : List (List ℚ) :=
  (List.range calib.rpmAxis.length).map fun r =>
    (List.range calib.loadAxis.length).map fun l =>
      fuelOutputCell rows calib minSamples changeLimit minHitWeight r l

/-! ### MAF-scale path (part_004 lines 251-295, 318-330, 476-517, 573-615) -/

/-- `mafScale[i] || 0`. -/
def mafCellOrig (calib : AutotuneCalib) (i : ℕ) : ℚ :=
  calib.mafScale.getD i 0

/-- The MAF open-loop contribution of one row to voltage bin `i`: the row
must pass the validity and rpm/load binning guards of the main loop, carry a
finite MAF voltage binned to `i`, classify open loop with positive lambdas,
and its 1D axis weight must reach `minHitWeight`. -/
def mafOpenContribution (calib : AutotuneCalib) (mafAxis : List ℚ)
    (minHitWeight : ℚ) (i : ℕ) (row : AutotuneRow) : Option (ℚ × ℚ) :=
  match row.rpm, row.load, row.lambdaActual, row.lambdaTarget with
  | some rpm, some load, some la, some lt =>
    match axisIndex rpm calib.rpmAxis, axisIndex load calib.loadAxis with
    | some rpmIdx, some _ =>
      match row.mafVoltage with
      | some mv =>
        match axisIndex mv mafAxis with
        | some mafIdx =>
          if mafIdx = i ∧ isOpenLoopRow calib load row.throttle rpmIdx = true ∧
              0 < lt ∧ 0 < la then
            let w := calculateAxisWeight mv mafIdx mafAxis
            if w < minHitWeight then none else some (w, la / lt)
          else none
        | none => none
      | none => none
    | _, _ => none
  | _, _, _, _ => none

/-- The MAF closed-loop contribution of one row to voltage bin `i`. -/
def mafClosedContribution (calib : AutotuneCalib) (mafAxis : List ℚ)
    (minHitWeight : ℚ) (i : ℕ) (row : AutotuneRow) : Option (ℚ × ℚ) :=
  match row.rpm, row.load, row.lambdaActual, row.lambdaTarget with
  | some rpm, some load, some _, some _ =>
    match axisIndex rpm calib.rpmAxis, axisIndex load calib.loadAxis with
    | some rpmIdx, some _ =>
      match row.mafVoltage with
      | some mv =>
        match axisIndex mv mafAxis with
        | some mafIdx =>
          if mafIdx = i ∧ isOpenLoopRow calib load row.throttle rpmIdx = false then
            let w := calculateAxisWeight mv mafIdx mafAxis
            if w < minHitWeight then none
            else some (w, row.stft.getD 0 + row.ltft.getD 0)
          else none
        | none => none
      | none => none
    | _, _ => none
  | _, _, _, _ => none

/-- MAF open-loop suggestion for bin `i` (part_004 lines 476-496). -/
def mafOpenSuggestionAt (rows : List AutotuneRow) (calib : AutotuneCalib)
    (mafAxis : List ℚ) (minSamples : ℤ) (minHitWeight : ℚ) (i : ℕ) : Option ℚ :=
  let e := accumulateBin (mafOpenContribution calib mafAxis minHitWeight i) rows
  if (e.samples : ℤ) ≥ minSamples then
    let weightedMeanRatio := if 0 < e.totalWeight then e.weightedSum / e.totalWeight else 1
    some (mafCellOrig calib i * weightedMeanRatio)
  else none

/-- MAF closed-loop suggestion for bin `i` (part_004 lines 498-517). -/
def mafClosedSuggestionAt (rows : List AutotuneRow) (calib : AutotuneCalib)
    (mafAxis : List ℚ) (minSamples : ℤ) (minHitWeight : ℚ) (i : ℕ) : Option ℚ :=
  let e := accumulateBin (mafClosedContribution calib mafAxis minHitWeight i) rows
  if (e.samples : ℤ) ≥ minSamples then
    let weightedMeanTrim := if 0 < e.totalWeight then e.weightedSum / e.totalWeight else 0
    some (mafCellOrig calib i * (1 + weightedMeanTrim / 100))
  else none

/-- Merged MAF suggestion: open supersedes closed (part_004 lines 574-584). -/
def mafSuggestionAt (rows : List AutotuneRow) (calib : AutotuneCalib)
    (mafAxis : List ℚ) (minSamples : ℤ) (minHitWeight : ℚ) (i : ℕ) : Option ℚ :=
  match mafOpenSuggestionAt rows calib mafAxis minSamples minHitWeight i with
  | some s => some s
  | none => mafClosedSuggestionAt rows calib mafAxis minSamples minHitWeight i

/-- Final MAF-scale output value at bin `i` (part_004 lines 586-615). -/
def mafOutputCell (rows : List AutotuneRow) (calib : AutotuneCalib)
    (mafAxis : List ℚ) (minSamples : ℤ) (changeLimit minHitWeight : ℚ) (i : ℕ) : ℚ :=
  match mafSuggestionAt rows calib mafAxis minSamples minHitWeight i with
  | none => mafCellOrig calib i
  | some suggested =>
    let sourceOriginal := mafCellOrig calib i
    if sourceOriginal = 0 then mafCellOrig calib i
    else clampSuggested sourceOriginal suggested changeLimit

/-- Whether MAF bin `i` contributes a `mafClampedDetails` record. -/
def mafClampRecorded (rows : List AutotuneRow) (calib : AutotuneCalib)
    (mafAxis : List ℚ) (minSamples : ℤ) (changeLimit minHitWeight : ℚ) (i : ℕ) : Bool :=
  match mafSuggestionAt rows calib mafAxis minSamples minHitWeight i with
  | none => false
  | some suggested =>
    let sourceOriginal := mafCellOrig calib i
    if sourceOriginal = 0 then false
    else clampRecorded sourceOriginal suggested changeLimit

/-- The clamped MAF output scale (`mafCloneScale` after the modification
pass). -/
def mafOutputScale (rows : List AutotuneRow) (calib : AutotuneCalib)
    (minSamples : ℤ) (changeLimit minHitWeight : ℚ) : List ℚ :=
  let mafAxis := getMafVoltageAxis calib calib.mafScale.length
  (List.range calib.mafScale.length).map fun i =>
    mafOutputCell rows calib mafAxis minSamples changeLimit minHitWeight i

/-! ## Supporting lemmas for axis binning -/

lemma insertIdxAux_le_length (v : ℚ) (axis : List ℚ) :
    insertIdxAux v axis ≤ axis.length := by
  induction axis with
  | nil => simp [insertIdxAux]
  | cons a rest ih =>
    simp only [insertIdxAux, List.length_cons]
    split
    · omega
    · omega

lemma insertIdxAux_pos (v a0 : ℚ) (rest : List ℚ) (h : a0 ≤ v) :
    1 ≤ insertIdxAux v (a0 :: rest) := by
  simp only [insertIdxAux, if_neg (not_lt.mpr h)]
  omega

lemma getD_le_of_lt_insertIdxAux (v : ℚ) (axis : List ℚ) :
    ∀ j, j < insertIdxAux v axis → axis.getD j 0 ≤ v := by
  induction axis with
  | nil => intro j hj; simp [insertIdxAux] at hj
  | cons a rest ih =>
    intro j hj
    simp only [insertIdxAux] at hj
    by_cases hva : v < a
    · simp [hva] at hj
    · rw [if_neg hva] at hj
      cases j with
      | zero => simpa using le_of_not_lt hva
      | succ j' =>
        simp only [List.getD_cons_succ]
        exact ih j' (by omega)

lemma lt_getD_insertIdxAux (v : ℚ) (axis : List ℚ)
    (h : insertIdxAux v axis < axis.length) :
    v < axis.getD (insertIdxAux v axis) 0 := by
  induction axis with
  | nil => simp [insertIdxAux] at h
  | cons a rest ih =>
    simp only [insertIdxAux] at h ⊢
    by_cases hva : v < a
    · simp [hva]
    · rw [if_neg hva] at h ⊢
      simp only [List.getD_cons_succ]
      exact ih (by simpa using h)

lemma getLastD_eq_getD_length (a0 : ℚ) (rest : List ℚ) :
    (a0 :: rest).getLastD a0 = (a0 :: rest).getD ((a0 :: rest).length - 1) 0 := by
  induction rest generalizing a0 with
  | nil => simp
  | cons b rest' ih =>
    simp only [List.getLastD_cons, List.length_cons]
    have h := ih b
    simp only [List.getLastD_cons, List.length_cons] at h
    rw [h]
    simp [Nat.add_sub_cancel, List.getD_cons_succ]

lemma sorted_getD_mono {axis : List ℚ} (hs : axis.Sorted (· ≤ ·))
    {i j : ℕ} (hij : i ≤ j) (hj : j < axis.length) :
    axis.getD i 0 ≤ axis.getD j 0 := by
  rcases eq_or_lt_of_le hij with rfl | hlt
  · exact le_refl _
  · have hi : i < axis.length := lt_trans hlt hj
    rw [axis.getD_eq_getElem 0 hi, axis.getD_eq_getElem 0 hj]
    exact List.Sorted.rel_get_of_lt hs (by simpa using hlt)

/-! ## Supporting lemmas for the change-limit clamp -/

lemma clampSuggested_bound (o s L : ℚ) (hL : 0 < L) (ho : o ≠ 0) :
    |clampSuggested o s L - o| * 100 ≤ |o| * L := by
  have hoabs : (0 : ℚ) < |o| := abs_pos.mpr ho
  unfold clampSuggested
  set pct := (s - o) / o * 100 with hpct
  by_cases hclamp : 0 < L ∧ L < |pct|
  · rw [if_pos hclamp]
    by_cases hpos : 0 < pct
    · rw [if_pos hpos]
      have : o * (1 + L / 100) - o = o * (L / 100) := by ring
      rw [this, abs_mul]
      have : |o| * |L / 100| * 100 = |o| * |L| := by
        rw [abs_div]
        norm_num
        ring
      rw [this, abs_of_pos hL]
    · rw [if_neg hpos]
      have : o * (1 - L / 100) - o = -(o * (L / 100)) := by ring
      rw [this, abs_neg, abs_mul]
      have : |o| * |L / 100| * 100 = |o| * |L| := by
        rw [abs_div]
        norm_num
        ring
      rw [this, abs_of_pos hL]
  · rw [if_neg hclamp]
    have hple : |pct| ≤ L := by
      by_contra hgt
      exact hclamp ⟨hL, lt_of_not_le hgt⟩
    have habs : |pct| = |s - o| * 100 / |o| := by
      rw [hpct, abs_mul, abs_div]
      norm_num
      ring
    rw [habs] at hple
    calc |s - o| * 100 = |s - o| * 100 / |o| * |o| := by
          field_simp
      _ ≤ L * |o| := by
          apply mul_le_mul_of_nonneg_right hple (le_of_lt hoabs)
      _ = |o| * L := by ring

/-! ## Claim theorems: knock severity, boost severity, axis binning, autotune -/

/-- C2: for every knock candidate sample (knock retard more negative than
`-0.0001` and rpm at or above the knock rpm minimum), at load at or above
`0.81 g/rev` the severity is critical iff `knockRetard < -6.0`, severe iff
`-6.0 ≤ knockRetard < -4.0`, moderate iff `-4.0 ≤ knockRetard < -2.0`, and
mild otherwise; at load below `0.81` all three boundaries shift by `+0.5`
degrees. -/
theorem knock_severity_tiers (kr load rpm rpmMin : ℚ)
    (hcand : kr < knockCandidateThreshold) (hrpm : rpmMin ≤ rpm) :
    (knockSensitivityLowLoad ≤ load →
      ((categorizeSeverity kr load = "critical" ↔ kr < -6) ∧
       (categorizeSeverity kr load = "severe" ↔ -6 ≤ kr ∧ kr < -4) ∧
       (categorizeSeverity kr load = "moderate" ↔ -4 ≤ kr ∧ kr < -2) ∧
       (categorizeSeverity kr load = "mild" ↔ -2 ≤ kr))) ∧
    (load < knockSensitivityLowLoad →
      ((categorizeSeverity kr load = "critical" ↔ kr < -11/2) ∧
       (categorizeSeverity kr load = "severe" ↔ -11/2 ≤ kr ∧ kr < -7/2) ∧
       (categorizeSeverity kr load = "moderate" ↔ -7/2 ≤ kr ∧ kr < -3/2) ∧
       (categorizeSeverity kr load = "mild" ↔ -3/2 ≤ kr))) := by
  constructor
  · intro hload
    have hnl : ¬ load < knockSensitivityLowLoad := not_lt.mpr hload
    simp only [categorizeSeverity, knockSeverityThresholds, if_neg hnl]
    norm_num
    refine ⟨?_, ?_, ?_, ?_⟩ <;>
      · split_ifs with h1 h2 h3 <;> simp_all <;>
          first
          | linarith
          | (constructor <;> linarith)
          | (intro h; linarith)
          | (intro h; constructor <;> linarith)
          | (constructor <;> intro h <;> linarith)
          | (constructor <;> intro h <;> constructor <;> linarith)
  · intro hload
    simp only [categorizeSeverity, knockSeverityThresholds, if_pos hload]
    norm_num
    refine ⟨?_, ?_, ?_, ?_⟩ <;>
      · split_ifs with h1 h2 h3 <;> simp_all <;>
          first
          | linarith
          | (constructor <;> linarith)
          | (intro h; linarith)
          | (intro h; constructor <;> linarith)
          | (constructor <;> intro h <;> linarith)
          | (constructor <;> intro h <;> constructor <;> linarith)

/-- Witness for C2 at a concrete candidate sample. -/
theorem knock_severity_tiers_witness :
    (-7 : ℚ) < knockCandidateThreshold ∧ (3000 : ℚ) ≥ 1000 ∧
      categorizeSeverity (-7) 1 = "critical" :=
  ⟨by norm_num [knockCandidateThreshold], by norm_num,
    ((knock_severity_tiers (-7) 1 3000 1000
      (by norm_num [knockCandidateThreshold]) (by norm_num)).1
      (by norm_num [knockSensitivityLowLoad])).1.mpr (by norm_num)⟩

/-- C7: boost sample severity is a pure function of the absolute boost error
against the default four-tier ladder `[20.3, 11.7, 5.3, 2.1]` kPa:
critical iff `|e| > 20.3`, severe iff `11.7 < |e| ≤ 20.3`, moderate iff
`5.3 < |e| ≤ 11.7`, mild iff `2.1 < |e| ≤ 5.3`, normal iff `|e| ≤ 2.1`,
independent of the error's sign (overshoot vs undershoot). -/
theorem boost_severity_ladder (e : ℚ) :
    (classifyErrorSeverity e boostErrorThresholds = "critical" ↔ 203/10 < |e|) ∧
    (classifyErrorSeverity e boostErrorThresholds = "severe" ↔
      117/10 < |e| ∧ |e| ≤ 203/10) ∧
    (classifyErrorSeverity e boostErrorThresholds = "moderate" ↔
      53/10 < |e| ∧ |e| ≤ 117/10) ∧
    (classifyErrorSeverity e boostErrorThresholds = "mild" ↔
      21/10 < |e| ∧ |e| ≤ 53/10) ∧
    (classifyErrorSeverity e boostErrorThresholds = "normal" ↔ |e| ≤ 21/10) ∧
    classifyErrorSeverity e boostErrorThresholds =
      classifyErrorSeverity (-e) boostErrorThresholds := by
  have habs : |(-e)| = |e| := abs_neg e
  simp only [classifyErrorSeverity, boostErrorThresholds, habs]
  norm_num
  refine ⟨?_, ?_, ?_, ?_, ?_⟩ <;>
    · split_ifs with h1 h2 h3 h4 <;> simp_all <;>
        first
        | linarith
        | (constructor <;> linarith)
        | (intro h; linarith)
        | (intro h; constructor <;> linarith)
        | (constructor <;> intro h <;> linarith)
        | (constructor <;> intro h <;> constructor <;> linarith)

/-- C5: for a non-empty non-decreasing axis, the bin lookup clamps below
`axis[0]` to index `0`, clamps above the last breakpoint to the last index,
and inside the range returns the index of the last breakpoint `≤ v` (so a
value equal to a breakpoint maps to that breakpoint's own bin). -/
theorem axisIndex_spec (a0 : ℚ) (rest : List ℚ) (v : ℚ)
    (hs : (a0 :: rest).Sorted (· ≤ ·)) :
    (v < a0 → axisIndex v (a0 :: rest) = some 0) ∧
    ((a0 :: rest).getD ((a0 :: rest).length - 1) 0 < v →
      axisIndex v (a0 :: rest) = some ((a0 :: rest).length - 1)) ∧
    (a0 ≤ v → v ≤ (a0 :: rest).getD ((a0 :: rest).length - 1) 0 →
      ∃ i, axisIndex v (a0 :: rest) = some i ∧ i < (a0 :: rest).length ∧
        (a0 :: rest).getD i 0 ≤ v ∧
        ∀ j, j < (a0 :: rest).length → (a0 :: rest).getD j 0 ≤ v → j ≤ i) := by
  have hlast := getLastD_eq_getD_length a0 rest
  refine ⟨?_, ?_, ?_⟩
  · intro hlo
    simp [axisIndex, hlo]
  · intro hhi
    have hlo : ¬ v < a0 := by
      intro hcon
      have h0 : (a0 :: rest).getD 0 0 ≤ (a0 :: rest).getD ((a0 :: rest).length - 1) 0 :=
        sorted_getD_mono hs (Nat.zero_le _) (by simp)
      simp only [List.getD_cons_zero] at h0
      linarith
    simp only [axisIndex, if_neg hlo, hlast, if_pos hhi]
    simp
  · intro hlo hhi
    have hnlt : ¬ v < a0 := not_lt.mpr hlo
    have hngt : ¬ v > (a0 :: rest).getLastD a0 := by
      rw [hlast]; exact not_lt.mpr hhi
    simp only [axisIndex, if_neg hnlt, if_neg hngt]
    set k := insertIdxAux v (a0 :: rest) with hk
    have hk1 : 1 ≤ k := insertIdxAux_pos v a0 rest hlo
    have hklen : k ≤ (a0 :: rest).length := insertIdxAux_le_length v _
    have hlen : (a0 :: rest).length = rest.length + 1 := List.length_cons a0 rest
    have hmin : min (k - 1) ((a0 :: rest).length - 1) = k - 1 := by
      apply min_eq_left; omega
    refine ⟨k - 1, by rw [hmin], by omega, ?_, ?_⟩
    · exact getD_le_of_lt_insertIdxAux v (a0 :: rest) (k - 1) (by omega)
    · intro j hj hjle
      by_contra hgt
      have hkj : k ≤ j := by omega
      have hklt : k < (a0 :: rest).length := lt_of_le_of_lt hkj hj
      have h1 : v < (a0 :: rest).getD k 0 := lt_getD_insertIdxAux v _ hklt
      have h2 : (a0 :: rest).getD k 0 ≤ (a0 :: rest).getD j 0 :=
        sorted_getD_mono hs hkj hj
      linarith

/-- Witness for C5 on the axis `[1, 2, 3]` with a value below the range. -/
theorem axisIndex_spec_witness :
    (0 : ℚ) < 1 ∧ axisIndex 0 [1, 2, 3] = some 0 :=
  ⟨by norm_num,
    (axisIndex_spec 1 [2, 3] 0 (by norm_num [List.sorted_cons])).1 (by norm_num)⟩

/-- Concrete inputs shared by the autotune witnesses: a 2×2 calibration and a
single open-loop row binned to cell `(0, 0)`. -/
def autotuneCalib0 : AutotuneCalib :=
  { rpmAxis := [1000, 2000]
    loadAxis := [1, 2]
    fuelBase := [[10, 10], [10, 10]]
    peEnableLoad := [0, 0]
    peEnableTps := [0, 0]
    mafScale := [3, 3]
    mafVoltageAxisRaw := [1, 2] }

def autotuneRows0 : List AutotuneRow :=
  [{ rpm := some 1200, load := some (5/4), lambdaActual := some (11/10),
     lambdaTarget := some 1, throttle := some 50, stft := some 0, ltft := some 0,
     mafVoltage := some (3/2) }]

/-- C1: with a positive change limit, every cell of the clamped fuel-base and
MAF-scale output tables differs from the analyzed calibration's value by at
most `changeLimitPct` percent (the clamp baseline is the original analyzed
value), and a second `analyze()` run over the same rows, calibration and
options yields the identical clamped tables (the embedding is a pure
function of its inputs, mirroring the engine's freedom from hidden state). -/
theorem autotune_change_limit_clamp (rows : List AutotuneRow) (calib : AutotuneCalib)
    (minSamples : ℤ) (changeLimit minHitWeight : ℚ) (hL : 0 < changeLimit) :
    (∀ r l, |fuelOutputCell rows calib minSamples changeLimit minHitWeight r l -
        fuelCellOrig calib r l| * 100 ≤ |fuelCellOrig calib r l| * changeLimit) ∧
    (∀ i, |mafOutputCell rows calib (getMafVoltageAxis calib calib.mafScale.length)
        minSamples changeLimit minHitWeight i -
        mafCellOrig calib i| * 100 ≤ |mafCellOrig calib i| * changeLimit) ∧
    fuelOutputTable rows calib minSamples changeLimit minHitWeight =
      fuelOutputTable rows calib minSamples changeLimit minHitWeight ∧
    mafOutputScale rows calib minSamples changeLimit minHitWeight =
      mafOutputScale rows calib minSamples changeLimit minHitWeight := by
  refine ⟨?_, ?_, rfl, rfl⟩
  · intro r l
    unfold fuelOutputCell
    cases hsugg : cellSuggestionAt rows calib minSamples minHitWeight r l with
    | none => simp; positivity
    | some s =>
      simp only
      by_cases h0 : fuelCellOrig calib r l = 0
      · rw [if_pos h0]; simp; positivity
      · rw [if_neg h0]
        exact clampSuggested_bound _ s changeLimit hL h0
  · intro i
    unfold mafOutputCell
    cases hsugg : mafSuggestionAt rows calib
        (getMafVoltageAxis calib calib.mafScale.length) minSamples minHitWeight i with
    | none => simp; positivity
    | some s =>
      simp only
      by_cases h0 : mafCellOrig calib i = 0
      · rw [if_pos h0]; simp; positivity
      · rw [if_neg h0]
        exact clampSuggested_bound _ s changeLimit hL h0

/-- Witness for C1 with `changeLimitPct = 5` at cell `(0, 0)`. -/
theorem autotune_change_limit_clamp_witness :
    (0 : ℚ) < 5 ∧
      |fuelOutputCell autotuneRows0 autotuneCalib0 1 5 0 0 0 -
        fuelCellOrig autotuneCalib0 0 0| * 100 ≤ |fuelCellOrig autotuneCalib0 0 0| * 5 :=
  ⟨by norm_num,
    (autotune_change_limit_clamp autotuneRows0 autotuneCalib0 1 5 0 (by norm_num)).1 0 0⟩

/-- Concrete inputs for the C10 witness: the analyzed fuel-base cell and the
MAF cell are both `0`, while a qualifying open-loop suggestion exists. -/
def autotuneCalib1 : AutotuneCalib :=
  { rpmAxis := [1000]
    loadAxis := [1]
    fuelBase := [[0]]
    peEnableLoad := [0]
    peEnableTps := [0]
    mafScale := [0]
    mafVoltageAxisRaw := [1] }

def autotuneRows1 : List AutotuneRow :=
  [{ rpm := some 1000, load := some 1, lambdaActual := some (11/10),
     lambdaTarget := some 1, throttle := some 50, stft := some 0, ltft := some 0,
     mafVoltage := some 1 }]

/-- C10: every fuel-base or MAF-scale cell whose analyzed calibration value is
`0` is copied through unchanged even when a qualifying suggestion exists for
it (the suggestion is discarded and no clamped-modification record is
emitted), and every cell without a qualifying suggestion is copied through
unchanged.  (Non-finite calibration values lie outside this `ℚ` model; the
source treats them exactly like `0` via the same guard.) -/
theorem autotune_zero_cells_copied (rows : List AutotuneRow) (calib : AutotuneCalib)
    (minSamples : ℤ) (changeLimit minHitWeight : ℚ) :
    (∀ r l, fuelCellOrig calib r l = 0 →
      fuelOutputCell rows calib minSamples changeLimit minHitWeight r l =
        fuelCellOrig calib r l ∧
      fuelClampRecorded rows calib minSamples changeLimit minHitWeight r l = false) ∧
    (∀ r l, cellSuggestionAt rows calib minSamples minHitWeight r l = none →
      fuelOutputCell rows calib minSamples changeLimit minHitWeight r l =
        fuelCellOrig calib r l) ∧
    (∀ i, mafCellOrig calib i = 0 →
      mafOutputCell rows calib (getMafVoltageAxis calib calib.mafScale.length)
          minSamples changeLimit minHitWeight i = mafCellOrig calib i ∧
      mafClampRecorded rows calib (getMafVoltageAxis calib calib.mafScale.length)
          minSamples changeLimit minHitWeight i = false) ∧
    (∀ i, mafSuggestionAt rows calib (getMafVoltageAxis calib calib.mafScale.length)
          minSamples minHitWeight i = none →
      mafOutputCell rows calib (getMafVoltageAxis calib calib.mafScale.length)
          minSamples changeLimit minHitWeight i = mafCellOrig calib i) := by
  refine ⟨?_, ?_, ?_, ?_⟩
  · intro r l h0
    unfold fuelOutputCell fuelClampRecorded
    cases cellSuggestionAt rows calib minSamples minHitWeight r l with
    | none => simp
    | some s => simp [h0]
  · intro r l hnone
    unfold fuelOutputCell
    rw [hnone]
  · intro i h0
    unfold mafOutputCell mafClampRecorded
    cases mafSuggestionAt rows calib (getMafVoltageAxis calib calib.mafScale.length)
        minSamples minHitWeight i with
    | none => simp
    | some s => simp [h0]
  · intro i hnone
    unfold mafOutputCell
    rw [hnone]

/-- Witness for C10: the zero cell and zero MAF bin of `autotuneCalib1` pass
through unchanged although `autotuneRows1` yields qualifying suggestions. -/
theorem autotune_zero_cells_copied_witness :
    fuelCellOrig autotuneCalib1 0 0 = 0 ∧
      (cellSuggestionAt autotuneRows1 autotuneCalib1 1 0 0 0).isSome = true ∧
      fuelOutputCell autotuneRows1 autotuneCalib1 1 5 0 0 0 =
        fuelCellOrig autotuneCalib1 0 0 ∧
      fuelClampRecorded autotuneRows1 autotuneCalib1 1 5 0 0 0 = false :=
  ⟨rfl,
    by
      norm_num [cellSuggestionAt, openSuggestionAt, openBinAt, accumulateBin,
        openContribution, autotuneRows1, autotuneCalib1, axisIndex, insertIdxAux,
        isOpenLoopRow, calculateCellWeight, calculateAxisWeight, fuelCellOrig,
        BinEntry.add, BinEntry.empty],
    ((autotune_zero_cells_copied autotuneRows1 autotuneCalib1 1 5 0).1 0 0 rfl).1,
    ((autotune_zero_cells_copied autotuneRows1 autotuneCalib1 1 5 0).1 0 0 rfl).2⟩

/-! ## Column resolution (AFRAnalyzer.findColumn, src/unnamed/part_007 lines 369-432)

String helpers modelling the JS operations used by the resolver. -/

/-- JS `String.prototype.toLowerCase` (ASCII case folding). -/
def strToLower (s : String) : String := s.map Char.toLower

/-- JS `String.prototype.includes` (substring containment). -/
def strContains (s sub : String) : Bool := decide (sub.toList <:+: s.toList)

/-- The character class `[()°%#\s-]` stripped by the resolver's `normalize`. -/
def strippedChars : List Char := ['(', ')', '°', '%', '#', ' ', '\t', '\n', '\r', '-']

/-- `normalize(str)`: lowercase then strip the character class. -/
def normalizeColName (s : String) : String :=
  ⟨(strToLower s).toList.filter (fun c => !strippedChars.contains c)⟩

/-- Partial-match layer: the normalized name is split on whitespace (already
stripped, so it is a single word), words of length `≤ 2` are dropped, and
every remaining word must occur in the normalized column.  An empty word
list therefore matches any column, as in the source. -/
def partialMatches (name col : String) : Bool :=
  let nw := normalizeColName name
  if nw.length > 2 then strContains (normalizeColName col) nw else true

/-- Keyword-count layer: a column matches when at least two keywords occur in
its lowercased text. -/
def keywordMatches (keywords : List String) (col : String) : Bool :=
  ((keywords.filter (fun kw => strContains (strToLower col) kw)).length ≥ 2 : Bool)

/-- `AFRAnalyzer.findColumn(columns, possibleNames)`: exact match, then
case-insensitive exact match, then partial match, then keyword search with
target/measured keyword sets. -/
def afrFindColumn (columns possibleNames : List String) : Option String :=
  match possibleNames.find? (fun name => columns.contains name) with
  | some name => some name
  | none =>
    match possibleNames.findSome? (fun name =>
        columns.find? (fun col => strToLower col = strToLower name)) with
    | some col => some col
    | none =>
      match possibleNames.findSome? (fun name =>
          columns.find? (fun col => partialMatches name col)) with
      | some col => some col
      | none =>
        let targetish := possibleNames.any (fun n =>
          strContains (strToLower n) "target" || strContains (strToLower n) "commanded" ||
            strContains (strToLower n) "desired")
        let keywords := if targetish then
            ["fuel", "ratio", "target", "commanded", "desired", "power", "mode"]
          else ["fuel", "sensor", "measured", "actual", "lambda", "o2", "afr"]
        columns.find? (keywordMatches keywords)

/-- Candidate names for the AFR target column (part_007 lines 27-42). -/
def afrTargetNames : List String :=
  ["Power Mode - Fuel Ratio Target (λ)", "Power Mode - Fuel Ratio Target",
   "Fuel Ratio Target (λ)", "Fuel Ratio Target", "AFR Target (λ)", "AFR Target",
   "Target AFR (λ)", "Target AFR", "Fuel Target (λ)", "Fuel Target",
   "Desired AFR (λ)", "Desired AFR", "Commanded AFR (λ)", "Commanded AFR"]

/-- Candidate names for the measured AFR column (part_007 lines 45-60). -/
def afrMeasuredNames : List String :=
  ["Air/Fuel Sensor #1 (λ)", "Air/Fuel Sensor #1", "Air Fuel Sensor #1 (λ)",
   "Air Fuel Sensor #1", "AFR Sensor #1 (λ)", "AFR Sensor #1", "Measured AFR (λ)",
   "Measured AFR", "Actual AFR (λ)", "Actual AFR", "O2 Sensor (λ)", "O2 Sensor",
   "Lambda Sensor #1 (λ)", "Lambda Sensor #1"]

/-! ## AFR analyzer (src/unnamed/part_007, class AFRAnalyzer) -/

/-- One row as read by `AFRAnalyzer.analyze`.  `target`/`measured` model
`parseFloat(row[col]) || 0` (`0` doubles as the invalid value, exactly as the
source's `!targetAFR` guard treats it); `throttle`, `rpm`, `load` likewise
default to `0`. -/
structure AfrRow where
  time : ℚ
  target : ℚ
  measured : ℚ
  throttle : ℚ
  rpm : ℚ
  load : ℚ
deriving DecidableEq

/-- Closed-loop lean threshold (λ), part_007 line 6. -/
def afrLeanThresholdCL : ℚ := 1/20
/-- Closed-loop rich threshold (λ), part_007 line 7. -/
def afrRichThresholdCL : ℚ := -1/20
/-- Closed-loop target tolerance (λ), part_007 line 8. -/
def afrTargetToleranceCL : ℚ := 1/50
/-- AFR grouping window in seconds, part_007 line 9. -/
def afrGroupingTimeWindow : ℚ := 1
/-- PE-mode lean threshold (λ), part_007 line 12. -/
def afrLeanThresholdPE : ℚ := 3/100
/-- PE-mode rich threshold (λ), part_007 line 13. -/
def afrRichThresholdPE : ℚ := -3/100
/-- PE-mode target tolerance (λ), part_007 line 14. -/
def afrTargetTolerancePE : ℚ := 3/200

/-- Per-mode lean threshold selection (part_007 line 155). -/
def afrLeanThreshold (isPEMode : Bool) : ℚ :=
  if isPEMode then afrLeanThresholdPE else afrLeanThresholdCL

/-- Per-mode rich threshold selection (part_007 line 156). -/
def afrRichThreshold (isPEMode : Bool) : ℚ :=
  if isPEMode then afrRichThresholdPE else afrRichThresholdCL

/-- Per-mode tolerance selection (part_007 line 157). -/
def afrTolerance (isPEMode : Bool) : ℚ :=
  if isPEMode then afrTargetTolerancePE else afrTargetToleranceCL

/-- PE-mode answer of the calibration collaborator for one sample
(part_007 lines 134-135): `false` when no tune file is loaded. -/
def afrIsPEMode (tuneLoaded : Bool) (peModeOf : ℚ → ℚ → ℚ → Bool) (row : AfrRow) :
    Bool :=
  tuneLoaded && peModeOf row.rpm row.load row.throttle

/-- Expected PE lambda target for one sample (part_007 lines 137-139); `none`
models a JS falsy answer and a sample outside PE mode. -/
def afrExpectedPETarget (tuneLoaded : Bool) (peModeOf : ℚ → ℚ → ℚ → Bool)
    (peTargetOf : ℚ → ℚ → Option ℚ) (row : AfrRow) : Option ℚ :=
  if afrIsPEMode tuneLoaded peModeOf row then peTargetOf row.rpm row.load else none

/-- PE target-mismatch flag (part_007 lines 141-144): the expected target
must be truthy (non-zero) and differ from the logged target by more than
`0.01`. -/
def afrTargetMismatch (tuneLoaded : Bool) (peModeOf : ℚ → ℚ → ℚ → Bool)
    (peTargetOf : ℚ → ℚ → Option ℚ) (row : AfrRow) : Bool :=
  match afrExpectedPETarget tuneLoaded peModeOf peTargetOf row with
  | some p => decide (p ≠ 0) && decide (|row.target - p| > 1/100)
  | none => false

/-- AFR error of a sample, `measured − target` (part_007 line 151). -/
def afrErrorOf (row : AfrRow) : ℚ := row.measured - row.target

/-- AFR error as a percentage of target (part_007 line 152). -/
def afrErrorPercentOf (row : AfrRow) : ℚ :=
  if 0 < row.target then afrErrorOf row / row.target * 100 else 0

/-- Per-sample event type from the threshold test (part_007 lines 161-166). -/
def afrEventTypeOf (isPEMode : Bool) (afrError : ℚ) : String :=
  if afrError > afrLeanThreshold isPEMode then "lean"
  else if afrError < afrRichThreshold isPEMode then "rich"
  else "normal"

/-- A raw (per-sample) AFR event as pushed by `analyze` (part_007 lines
221-235). -/
structure AfrRawEvent where
  idx : ℕ
  time : ℚ
  target : ℚ
  measured : ℚ
  afrError : ℚ
  afrErrorPercent : ℚ
  rpm : ℚ
  throttle : ℚ
  load : ℚ
  eventType : String
  isPEMode : Bool
  expectedPETarget : Option ℚ
  targetMismatch : Bool
deriving DecidableEq

/-- Mutable aggregates of the `analyze` loop (part_007 lines 94-101). -/
structure AfrScanState where
  events : List AfrRawEvent
  totalError : ℚ
  totalErrorAbs : ℚ
  inTargetCount : ℕ
  maxLean : ℚ
  maxRich : ℚ
  validCount : ℕ
  validForTimeInTarget : ℕ
deriving DecidableEq

def AfrScanState.initial : AfrScanState := ⟨[], 0, 0, 0, 0, 0, 0, 0⟩

/-- One iteration of the `analyze` row loop (part_007 lines 103-237). -/
def afrStep (tuneLoaded : Bool) (peModeOf : ℚ → ℚ → ℚ → Bool)
    (peTargetOf : ℚ → ℚ → Option ℚ) (st : AfrScanState) (idx : ℕ) (row : AfrRow) :
    AfrScanState :=
  if row.target = 0 ∨ row.measured = 0 then st
  else if |row.target - 1| < 1/1000 then st
  else
    let st1 := { st with validCount := st.validCount + 1 }
    let isPEMode := afrIsPEMode tuneLoaded peModeOf row
    let expectedPETarget := afrExpectedPETarget tuneLoaded peModeOf peTargetOf row
    let targetMismatch := afrTargetMismatch tuneLoaded peModeOf peTargetOf row
    let afrError := afrErrorOf row
    let afrErrorPercent := afrErrorPercentOf row
    let tol := afrTolerance isPEMode
    let eventType := afrEventTypeOf isPEMode afrError
    let trackStats := fun (s : AfrScanState) =>
      { s with
        totalError := s.totalError + afrError
        totalErrorAbs := s.totalErrorAbs + |afrError|
        inTargetCount :=
          if |afrError| ≤ tol ∧ 15 ≤ row.throttle then s.inTargetCount + 1
          else s.inTargetCount
        maxLean := if afrError > s.maxLean then afrError else s.maxLean
        maxRich := if afrError < s.maxRich then afrError else s.maxRich }
    if row.throttle < 10 ∧ targetMismatch = false then trackStats st1
    else
      let st2 := trackStats
        { st1 with
          validForTimeInTarget :=
            if 15 ≤ row.throttle then st1.validForTimeInTarget + 1
            else st1.validForTimeInTarget }
      let isSignificantDeviation := eventType ≠ "normal" ∨ tol < |afrError|
      let meetsMinimumDeviation := 7 < |afrErrorPercent|
      if targetMismatch = true ∨ (isSignificantDeviation ∧ meetsMinimumDeviation) then
        { st2 with
          events := st2.events ++
            [{ idx := idx, time := row.time, target := row.target,
               measured := row.measured, afrError := afrError,
               afrErrorPercent := afrErrorPercent, rpm := row.rpm,
               throttle := row.throttle, load := row.load,
               eventType := if targetMismatch then "target_mismatch" else eventType,
               isPEMode := isPEMode, expectedPETarget := expectedPETarget,
               targetMismatch := targetMismatch }] }
      else st2

/-! ### AFR grouping and full analyze -/

/-- Arithmetic mean of the listed values (JS `reduce(sum)/length`; the
source only averages non-empty groups, where `ℚ` division by zero cannot
arise). -/
def ratAvg (l : List ℚ) : ℚ := l.sum / l.length

/-- JS `Math.round`: round half toward positive infinity. -/
def ratRound (x : ℚ) : ℤ := ⌊x + 1/2⌋

/-- JS `Math.max(...)` over a non-empty list (`0` for the empty list, which
the source never passes). -/
def listMaxD : List ℚ → ℚ
  | [] => 0
  | x :: xs => xs.foldl max x

/-- JS `reduce((prev, cur) => score(cur) > score(prev) ? cur : prev)` without
an initial value: the first element seeds the fold. -/
def mostSevereBy {α : Type} (score : α → ℚ) (first : α) (rest : List α) : α :=
  rest.foldl (fun prev cur => if score cur > score prev then cur else prev) first

/-- A grouped AFR event (part_007 `createGroupedEvent`, lines 327-367). -/
structure AfrGroupedEvent where
  idx : ℕ
  time : ℚ
  endTime : ℚ
  duration : ℚ
  target : ℚ
  measured : ℚ
  afrError : ℚ
  maxAFRError : ℚ
  avgAFRError : ℚ
  afrErrorPercent : ℚ
  avgAFRErrorPercent : ℚ
  rpm : ℤ
  throttle : ℚ
  load : ℚ
  eventType : String
  eventCount : ℕ
deriving DecidableEq

/-- `AFRAnalyzer.createGroupedEvent(eventGroup)` (part_007 lines 327-367):
first sample's target/measured, most-severe sample's error, averaged
context.  The empty-group case never occurs in the source; it returns a
zeroed record here. -/
def afrCreateGroupedEvent : List AfrRawEvent → AfrGroupedEvent
  | [] =>
    { idx := 0, time := 0, endTime := 0, duration := 0, target := 0, measured := 0,
      afrError := 0, maxAFRError := 0, avgAFRError := 0, afrErrorPercent := 0,
      avgAFRErrorPercent := 0, rpm := 0, throttle := 0, load := 0, eventType := "",
      eventCount := 0 }
  | first :: rest =>
    let g := first :: rest
    let mostSevere := mostSevereBy (fun e => |e.afrError|) first rest
    let startTime := first.time
    let endTime := (g.getLastD first).time
    { idx := mostSevere.idx
      time := startTime
      endTime := endTime
      duration := endTime - startTime
      target := first.target
      measured := first.measured
      afrError := mostSevere.afrError
      maxAFRError := listMaxD (g.map fun e => |e.afrError|) *
        (if mostSevere.afrError < 0 then -1 else 1)
      avgAFRError := ratAvg (g.map (·.afrError))
      afrErrorPercent := mostSevere.afrErrorPercent
      avgAFRErrorPercent := ratAvg (g.map (·.afrErrorPercent))
      rpm := ratRound (ratAvg (g.map (·.rpm)))
      throttle := ratAvg (g.map (·.throttle))
      load := ratAvg (g.map (·.load))
      eventType := mostSevere.eventType
      eventCount := g.length }

/-- `AFRAnalyzer.groupEventsByType(eventList)` (part_007 lines 294-325): the
shared chain-grouping with the AFR window. -/
def afrGroupEventsByType (eventList : List AfrRawEvent) : List AfrGroupedEvent :=
  groupEventsByTime (·.time) eventList afrGroupingTimeWindow afrCreateGroupedEvent

/-- `AFRAnalyzer.groupAFREvents(events)` (part_007 lines 272-292): lean,
rich and flagged-normal events are grouped independently and merged sorted
by time.  (`target_mismatch` events fall in none of the three lists.) -/
def groupAFREvents (events : List AfrRawEvent) : List AfrGroupedEvent :=
  match events with
  | [] => []
  | _ :: _ =>
    let leanEvents := events.filter (fun e => e.eventType == "lean")
    let richEvents := events.filter (fun e => e.eventType == "rich")
    let normalEvents := events.filter (fun e => e.eventType == "normal")
    sortByTime (·.time)
      (afrGroupEventsByType leanEvents ++ afrGroupEventsByType richEvents ++
        afrGroupEventsByType normalEvents)

/-- AFR statistics (part_007 lines 250-262 and the empty result of lines
71-90 share this shape; `pemodeEvents`/`targetMismatchEvents` count grouped
events whose `isPEMode`/`targetMismatch` fields are set, fields the grouped
records never carry, so both counts are always `0`). -/
structure AfrStatistics where
  totalDataPoints : ℕ
  avgError : ℚ
  avgErrorAbs : ℚ
  maxLean : ℚ
  maxRich : ℚ
  inTargetPercent : ℚ
  leanEvents : ℕ
  richEvents : ℕ
  pemodeEvents : ℕ
  targetMismatchEvents : ℕ
  timeRange : ℚ × ℚ
deriving DecidableEq

/-- `AFRAnalyzer.analyze` result object: events, statistics, resolved
columns and the optional error string. -/
structure AfrResult where
  events : List AfrGroupedEvent
  statistics : AfrStatistics
  targetColumn : Option String
  measuredColumn : Option String
  error : Option String
deriving DecidableEq

/-- The zeroed statistics of the missing-column result (part_007 lines
73-83). -/
def emptyAfrStatistics (timeRange : ℚ × ℚ) : AfrStatistics :=
  { totalDataPoints := 0, avgError := 0, avgErrorAbs := 0, maxLean := 0, maxRich := 0,
    inTargetPercent := 0, leanEvents := 0, richEvents := 0, pemodeEvents := 0,
    targetMismatchEvents := 0, timeRange := timeRange }

/-- The error string of the missing-column result (part_007 line 88). -/
def afrMissingColumnsError : String :=
  "Required AFR columns not found in log file. Available columns logged to console."

/-- `AFRAnalyzer.analyze()` (part_007 lines 17-270).  `none` models the JS
`null` returned for an empty log.  `timeRange` is the data processor's
`getTimeRange()` answer (an external collaborator). -/
def afrAnalyze (rows : List AfrRow) (columns : List String) (timeRange : ℚ × ℚ)
    (tuneLoaded : Bool) (peModeOf : ℚ → ℚ → ℚ → Bool)
    (peTargetOf : ℚ → ℚ → Option ℚ) : Option AfrResult :=
  match rows with
  | [] => none
  | _ :: _ =>
    let targetCol := afrFindColumn columns afrTargetNames
    let measuredCol := afrFindColumn columns afrMeasuredNames
    if targetCol.isNone || measuredCol.isNone then
      some { events := [], statistics := emptyAfrStatistics timeRange,
             targetColumn := targetCol, measuredColumn := measuredCol,
             error := some afrMissingColumnsError }
    else
      let final := rows.enum.foldl
        (fun st p => afrStep tuneLoaded peModeOf peTargetOf st p.1 p.2)
        AfrScanState.initial
      let grouped := groupAFREvents final.events
      some
        { events := grouped
          statistics :=
            { totalDataPoints := final.validCount
              avgError := if 0 < final.validCount then
                  final.totalError / final.validCount else 0
              avgErrorAbs := if 0 < final.validCount then
                  final.totalErrorAbs / final.validCount else 0
              maxLean := final.maxLean
              maxRich := final.maxRich
              inTargetPercent := if 0 < final.validForTimeInTarget then
                  (final.inTargetCount : ℚ) / final.validForTimeInTarget * 100 else 0
              leanEvents := (grouped.filter (fun e => e.eventType == "lean")).length
              richEvents := (grouped.filter (fun e => e.eventType == "rich")).length
              pemodeEvents := 0
              targetMismatchEvents := 0
              timeRange := timeRange }
          targetColumn := targetCol
          measuredColumn := measuredCol
          error := none }

/-- C6: for a sample with valid (non-zero) measured and target lambda and a
non-stoichiometric target: at throttle below 10% that is not a PE target
mismatch, no event is generated but the error still enters the aggregate
error statistics; at throttle at or above 10%, an event is generated exactly
when the sample is a target mismatch, or when it is classified lean/rich or
exceeds the per-mode tolerance while its error as a percentage of target
exceeds 7% in magnitude. -/
theorem afr_event_suppression (tuneLoaded : Bool) (peModeOf : ℚ → ℚ → ℚ → Bool)
    (peTargetOf : ℚ → ℚ → Option ℚ) (st : AfrScanState) (idx : ℕ) (row : AfrRow)
    (htv : row.target ≠ 0) (hmv : row.measured ≠ 0)
    (hstoich : ¬ |row.target - 1| < 1/1000) :
    (row.throttle < 10 →
      afrTargetMismatch tuneLoaded peModeOf peTargetOf row = false →
      (afrStep tuneLoaded peModeOf peTargetOf st idx row).events = st.events ∧
      (afrStep tuneLoaded peModeOf peTargetOf st idx row).totalError =
        st.totalError + afrErrorOf row) ∧
    (10 ≤ row.throttle →
      (((afrStep tuneLoaded peModeOf peTargetOf st idx row).events.length =
          st.events.length + 1) ↔
        (afrTargetMismatch tuneLoaded peModeOf peTargetOf row = true ∨
          ((afrEventTypeOf (afrIsPEMode tuneLoaded peModeOf row) (afrErrorOf row) ≠
              "normal" ∨
            afrTolerance (afrIsPEMode tuneLoaded peModeOf row) < |afrErrorOf row|) ∧
            7 < |afrErrorPercentOf row|))) ∧
      (((afrStep tuneLoaded peModeOf peTargetOf st idx row).events.length =
          st.events.length) ↔
        ¬ (afrTargetMismatch tuneLoaded peModeOf peTargetOf row = true ∨
          ((afrEventTypeOf (afrIsPEMode tuneLoaded peModeOf row) (afrErrorOf row) ≠
              "normal" ∨
            afrTolerance (afrIsPEMode tuneLoaded peModeOf row) < |afrErrorOf row|) ∧
            7 < |afrErrorPercentOf row|)))) := by
  have hg1 : ¬ (row.target = 0 ∨ row.measured = 0) := by tauto
  constructor
  · intro h10 hnomis
    simp only [afrStep, if_neg hg1, if_neg hstoich, hnomis]
    rw [if_pos ⟨h10, trivial⟩]
    exact ⟨rfl, rfl⟩
  · intro h10
    have hcond : ¬ (row.throttle < 10 ∧
        afrTargetMismatch tuneLoaded peModeOf peTargetOf row = false) := by
      rintro ⟨hlt, _⟩
      exact absurd h10 (not_le.mpr hlt)
    simp only [afrStep, if_neg hg1, if_neg hstoich, if_neg hcond]
    by_cases hc : afrTargetMismatch tuneLoaded peModeOf peTargetOf row = true ∨
        ((afrEventTypeOf (afrIsPEMode tuneLoaded peModeOf row) (afrErrorOf row) ≠
            "normal" ∨
          afrTolerance (afrIsPEMode tuneLoaded peModeOf row) < |afrErrorOf row|) ∧
          7 < |afrErrorPercentOf row|)
    · rw [if_pos hc]
      simp [hc]
    · rw [if_neg hc]
      simp [hc]

/-- Concrete sample for the C6 witness: closed loop, throttle 20%, 50% lean. -/
def afrRow0 : AfrRow :=
  { time := 0, target := 2, measured := 3, throttle := 20, rpm := 3000, load := 1 }

/-- Witness for C6: the 50%-deviation sample at throttle 20% generates an
event. -/
theorem afr_event_suppression_witness :
    afrRow0.target ≠ 0 ∧ afrRow0.measured ≠ 0 ∧ ¬ |afrRow0.target - 1| < 1/1000 ∧
      (afrStep false (fun _ _ _ => false) (fun _ _ => none)
        AfrScanState.initial 0 afrRow0).events.length =
        AfrScanState.initial.events.length + 1 :=
  ⟨by norm_num [afrRow0], by norm_num [afrRow0], by norm_num [afrRow0],
    ((afr_event_suppression false (fun _ _ _ => false) (fun _ _ => none)
        AfrScanState.initial 0 afrRow0 (by norm_num [afrRow0]) (by norm_num [afrRow0])
        (by norm_num [afrRow0])).2 (by norm_num [afrRow0])).1.mpr
      (Or.inr ⟨Or.inl (by
          norm_num [afrEventTypeOf, afrIsPEMode, afrErrorOf,
            afrLeanThreshold, afrLeanThresholdCL, afrRow0]
          decide),
        by norm_num [afrErrorPercentOf, afrErrorOf, afrRow0]⟩)⟩

/-! ## Boost control analyzer (src/analysis/boostControlAnalyzer.js, the
shared-utility class at lines 4-399) -/

/-- `AnalyzerUtils.findColumn(columns, possibleNames)`
(src/renderer/AnalyzerUtils.js lines 14-50): exact match, case-insensitive
exact match, then partial match over names normalized by stripping
`[()°%-\s]` (note: no `#`, unlike the analyzers' own copies). -/
def analyzerUtilsStrippedChars : List Char := ['(', ')', '°', '%', ' ', '\t', '\n', '\r', '-']

def analyzerUtilsNormalize (s : String) : String :=
  ⟨(strToLower s).toList.filter (fun c => !analyzerUtilsStrippedChars.contains c)⟩

def analyzerUtilsPartialMatches (name col : String) : Bool :=
  let nw := analyzerUtilsNormalize name
  if nw.length > 2 then strContains (analyzerUtilsNormalize col) nw else true

def analyzerUtilsFindColumn (columns possibleNames : List String) : Option String :=
  match possibleNames.find? (fun name => columns.contains name) with
  | some name => some name
  | none =>
    match possibleNames.findSome? (fun name =>
        columns.find? (fun col => strToLower col = strToLower name)) with
    | some col => some col
    | none =>
      possibleNames.findSome? (fun name =>
        columns.find? (fun col => analyzerUtilsPartialMatches name col))

/-- `Config.columnAliases.boostTarget` (src/unnamed/part_002 lines 285-294);
the analyzer resolves through Config when it is loaded. -/
def boostTargetAliases : List String :=
  ["Boost Target (kPa)", "Boost Target", "BoostTarget", "Boost Target kPa",
   "Target Boost", "Target Boost (kPa)", "Boost Setpoint", "Desired Boost"]

/-- `Config.columnAliases.actualBoost` (part_002 lines 295-304). -/
def actualBoostAliases : List String :=
  ["Manifold Absolute Pressure (kPa)", "Manifold Air Pressure - Filtered (kPa)",
   "Manifold Air Pressure - Filtered", "Manifold Absolute Pressure",
   "Manifold Pressure", "MAP", "MAP (kPa)", "Boost Pressure", "Actual Boost"]

/-- `_getDefaultAliases('wastegateDC')` (boostControlAnalyzer.js lines
263-266): Config's alias table has no `wastegateDC` key (its key is
`wastegate`), so the analyzer falls back to these defaults. -/
def wastegateDCAliases : List String :=
  ["Wastegate Duty Cycle (%)", "Wastegate DC", "WG Duty", "Wastegate Duty",
   "WG Duty (%)"]

/-- One row as read by `BoostControlAnalyzer.analyze`; every field models
`parseFloat(row[col]) || 0` / `row[col] || 0`. -/
structure BoostRow where
  time : ℚ
  boostTarget : ℚ
  actualBoost : ℚ
  wastegateDC : ℚ
  throttle : ℚ
  rpm : ℚ
  load : ℚ
deriving DecidableEq

/-- Answers of the tune-file parser used by the boost analyzer:
`getBoostErrorIndex()`, `getBoostLimit(rpm)` and the wastegate-max
interpolation (`some` only when `wg_max`, `wg_rpm_index` and `wg_tps_index`
are all present). -/
structure BoostTuneView where
  boostErrorIndex : Option (List ℚ)
  getBoostLimit : ℚ → ℚ
  wgInterp : Option (ℚ → ℚ → ℚ)

/-- Boost analyzer configuration (constructor defaults matching
`Config.boost`, part_002 lines 53-79). -/
def boostOvershootThreshold : ℚ := 5
def boostUndershootThreshold : ℚ := -5
def boostTargetTolerance : ℚ := 10
def boostGroupingTimeWindow : ℚ := 1/2
def boostMinBoostPressure : ℚ := 100
def boostMinOvershootDuration : ℚ := 1/4
def boostMinUndershootDuration : ℚ := 1/2
def boostMinThrottleForOvershoot : ℚ := 30
def boostMaxThrottleForUndershoot : ℚ := 50
def boostWastegateSaturationThreshold : ℚ := 95/100
def boostWastegateMinThreshold : ℚ := 5

/-- A raw per-sample boost event (boostControlAnalyzer.js lines 164-180). -/
structure BoostRawEvent where
  idx : ℕ
  time : ℚ
  boostTarget : ℚ
  actualBoost : ℚ
  boostError : ℚ
  boostErrorPercent : ℚ
  wastegateDC : Option ℚ
  rpm : ℚ
  throttle : ℚ
  load : ℚ
  eventType : String
  severity : String
  boostLimit : Option ℚ
  boostLimitViolation : Bool
  wastegateSaturated : Bool
deriving DecidableEq

/-- Scan aggregates of the analyze loop (lines 81-88). -/
structure BoostScanState where
  events : List BoostRawEvent
  totalError : ℚ
  totalErrorAbs : ℚ
  inTargetCount : ℕ
  maxOvershoot : ℚ
  maxUndershoot : ℚ
  totalWastegateDC : ℚ
  wastegateCount : ℕ
deriving DecidableEq

def BoostScanState.initial : BoostScanState := ⟨[], 0, 0, 0, 0, 0, 0, 0⟩

/-- One iteration of the filtered-row loop (lines 92-182).  `hasTarget` and
`hasWastegate` record whether the optional columns were resolved;
`thresholds` is the severity ladder after `loadTuneFileParameters`. -/
def boostStep (tune : Option BoostTuneView) (thresholds : List ℚ)
    (hasTarget hasWastegate : Bool) (st : BoostScanState) (idx : ℕ) (row : BoostRow) :
    BoostScanState :=
  let boostTarget := if hasTarget then row.boostTarget else 0
  let actualBoost := row.actualBoost
  let wastegateDC : Option ℚ := if hasWastegate then some row.wastegateDC else none
  let boostError := actualBoost - boostTarget
  let boostErrorPercent := if 0 < boostTarget then boostError / boostTarget * 100 else 0
  let st1 : BoostScanState :=
    { st with
      totalError := st.totalError + boostError
      totalErrorAbs := st.totalErrorAbs + |boostError|
      inTargetCount := if |boostError| ≤ boostTargetTolerance then st.inTargetCount + 1
        else st.inTargetCount
      maxOvershoot := if boostError > st.maxOvershoot then boostError else st.maxOvershoot
      maxUndershoot := if boostError < st.maxUndershoot then boostError
        else st.maxUndershoot
      totalWastegateDC := match wastegateDC with
        | some w => st.totalWastegateDC + w
        | none => st.totalWastegateDC
      wastegateCount := match wastegateDC with
        | some _ => st.wastegateCount + 1
        | none => st.wastegateCount }
  let boostLimit : Option ℚ := match tune with
    | some t => some (t.getBoostLimit row.rpm)
    | none => none
  let boostLimitViolation := match boostLimit with
    | some lim => decide (actualBoost > lim)
    | none => false
  let eventType :=
    if boostError > boostOvershootThreshold then "overshoot"
    else if boostError < boostUndershootThreshold then "undershoot"
    else "normal"
  let severity := classifyErrorSeverity boostError thresholds
  let wastegateSaturated := match wastegateDC, tune with
    | some w, some t =>
      match t.wgInterp with
      | some interp =>
        let wgMax := interp row.rpm row.throttle
        (eventType == "overshoot" && decide (w ≥ wgMax * boostWastegateSaturationThreshold)) ||
          (eventType == "undershoot" && decide (w ≤ boostWastegateMinThreshold))
      | none => false
    | _, _ => false
  if boostLimitViolation = true ∨ eventType ≠ "normal" ∨
      boostTargetTolerance < |boostError| then
    if eventType = "overshoot" ∧ row.throttle < boostMinThrottleForOvershoot ∧
        boostLimitViolation = false then st1
    else if eventType = "undershoot" ∧ row.throttle ≤ boostMaxThrottleForUndershoot ∧
        boostLimitViolation = false then st1
    else
      { st1 with
        events := st1.events ++
          [{ idx := idx, time := row.time, boostTarget := boostTarget,
             actualBoost := actualBoost, boostError := boostError,
             boostErrorPercent := boostErrorPercent, wastegateDC := wastegateDC,
             rpm := row.rpm, throttle := row.throttle, load := row.load,
             eventType := if boostLimitViolation then "limit_violation" else eventType,
             severity := if boostLimitViolation then "critical" else severity,
             boostLimit := boostLimit, boostLimitViolation := boostLimitViolation,
             wastegateSaturated := wastegateSaturated }] }
  else st1

/-- A grouped boost event (`createGroupedEvent` closure, lines 308-337). -/
structure BoostGroupedEvent where
  idx : ℕ
  time : ℚ
  endTime : ℚ
  duration : ℚ
  boostTarget : ℚ
  actualBoost : ℚ
  boostError : ℚ
  maxBoostError : ℚ
  avgBoostError : ℚ
  boostErrorPercent : ℚ
  avgBoostErrorPercent : ℚ
  wastegateDC : Option ℚ
  rpm : ℤ
  throttle : ℚ
  load : ℚ
  eventType : String
  eventCount : ℕ
deriving DecidableEq

/-- The grouped-event builder (lines 308-337). -/
def boostCreateGroupedEvent : List BoostRawEvent → BoostGroupedEvent
  | [] =>
    { idx := 0, time := 0, endTime := 0, duration := 0, boostTarget := 0,
      actualBoost := 0, boostError := 0, maxBoostError := 0, avgBoostError := 0,
      boostErrorPercent := 0, avgBoostErrorPercent := 0, wastegateDC := none,
      rpm := 0, throttle := 0, load := 0, eventType := "", eventCount := 0 }
  | first :: rest =>
    let g := first :: rest
    let mostSevere := mostSevereBy (fun e => |e.boostError|) first rest
    let wgGroup := g.filterMap (·.wastegateDC)
    { idx := mostSevere.idx
      time := first.time
      endTime := (g.getLastD first).time
      duration := (g.getLastD first).time - first.time
      boostTarget := ratAvg (g.map (·.boostTarget))
      actualBoost := ratAvg (g.map (·.actualBoost))
      boostError := mostSevere.boostError
      maxBoostError := listMaxD (g.map fun e => |e.boostError|) *
        (if mostSevere.boostError < 0 then -1 else 1)
      avgBoostError := ratAvg (g.map (·.boostError))
      boostErrorPercent := mostSevere.boostErrorPercent
      avgBoostErrorPercent := ratAvg (g.map (·.boostErrorPercent))
      wastegateDC := if wgGroup.length > 0 then some (ratAvg wgGroup) else none
      rpm := ratRound (ratAvg (g.map (·.rpm)))
      throttle := ratAvg (g.map (·.throttle))
      load := ratAvg (g.map (·.load))
      eventType := mostSevere.eventType
      eventCount := g.length }

/-- One type's chain grouping inside `_groupBoostEvents` (lines 340-364):
`AnalyzerUtils.groupEventsByTime` with the boost window. -/
def boostGroupEventsOfType (eventList : List BoostRawEvent) : List BoostGroupedEvent :=
  groupEventsByTime (·.time) eventList boostGroupingTimeWindow boostCreateGroupedEvent

/-- `_groupBoostEvents(events)` (lines 301-375): overshoot and undershoot
grouped separately, then debounced by the per-type minimum durations and
merged sorted by time.  (`limit_violation` events belong to neither list.) -/
def groupBoostEvents (events : List BoostRawEvent) : List BoostGroupedEvent :=
  match events with
  | [] => []
  | _ :: _ =>
    let overshootEvents := events.filter (fun e => e.eventType == "overshoot")
    let undershootEvents := events.filter (fun e => e.eventType == "undershoot")
    let groupedOvershoot := (boostGroupEventsOfType overshootEvents).filter
      (fun e => decide (e.duration ≥ boostMinOvershootDuration))
    let groupedUndershoot := (boostGroupEventsOfType undershootEvents).filter
      (fun e => decide (e.duration ≥ boostMinUndershootDuration))
    sortByTime (·.time) (groupedOvershoot ++ groupedUndershoot)

/-- Boost statistics (lines 195-212; the `_createEmptyResult` statistics of
lines 277-289 are the zeroed subset).  `limitViolations`, the per-severity
counts and `wastegateSaturatedEvents` filter grouped events on fields the
grouped records never carry (`severity`, `wastegateSaturated`) or on a type
the grouping drops (`limit_violation`), so they are always `0`. -/
structure BoostStatistics where
  totalDataPoints : ℕ
  avgBoostError : ℚ
  avgBoostErrorAbs : ℚ
  maxOvershoot : ℚ
  maxUndershoot : ℚ
  inTargetPercent : ℚ
  overshootEvents : ℕ
  undershootEvents : ℕ
  limitViolations : ℕ
  criticalEvents : ℕ
  severeEvents : ℕ
  moderateEvents : ℕ
  mildEvents : ℕ
  wastegateSaturatedEvents : ℕ
  avgWastegateDC : ℚ
  timeRange : ℚ × ℚ
deriving DecidableEq

structure BoostResult where
  events : List BoostGroupedEvent
  statistics : BoostStatistics
  boostTargetColumn : Option String
  actualBoostColumn : Option String
  wastegateColumn : Option String
  error : Option String
deriving DecidableEq

/-- `_createEmptyResult` (lines 275-295): well-formed zeroed result with the
resolved columns and a human-readable error string. -/
def boostEmptyResult (boostTargetCol actualBoostCol wastegateCol : Option String)
    (timeRange : ℚ × ℚ) (errorMessage : String) : BoostResult :=
  { events := []
    statistics :=
      { totalDataPoints := 0, avgBoostError := 0, avgBoostErrorAbs := 0,
        maxOvershoot := 0, maxUndershoot := 0, inTargetPercent := 0,
        overshootEvents := 0, undershootEvents := 0, limitViolations := 0,
        criticalEvents := 0, severeEvents := 0, moderateEvents := 0, mildEvents := 0,
        wastegateSaturatedEvents := 0, avgWastegateDC := 0, timeRange := timeRange }
    boostTargetColumn := boostTargetCol
    actualBoostColumn := actualBoostCol
    wastegateColumn := wastegateCol
    error := some errorMessage }

/-- Error message for the missing actual-boost column (lines 63-64). -/
def boostMissingColumnError : String :=
  "Required boost column (actual boost/manifold pressure) not found in log file."

/-- Error message when no sample reaches 100 kPa (line 77). -/
def boostNoDataError : String := "No boost data found (all values below 100 kPa)"

/-- `BoostControlAnalyzer.analyze()` (lines 43-221): `none` models the JS
`null` for an empty log; otherwise resolve the columns, filter to boost
conditions, scan, group and summarize. -/
def boostAnalyze (rows : List BoostRow) (columns : List String) (timeRange : ℚ × ℚ)
    (tune : Option BoostTuneView) : Option BoostResult :=
  match rows with
  | [] => none
  | _ :: _ =>
    let boostTargetCol := analyzerUtilsFindColumn columns boostTargetAliases
    let actualBoostCol := analyzerUtilsFindColumn columns actualBoostAliases
    let wastegateCol := analyzerUtilsFindColumn columns wastegateDCAliases
    if actualBoostCol.isNone then
      some (boostEmptyResult boostTargetCol actualBoostCol wastegateCol timeRange
        boostMissingColumnError)
    else
      let thresholds := match tune with
        | some t => t.boostErrorIndex.getD boostErrorThresholds
        | none => boostErrorThresholds
      let filteredData := rows.filter (fun row =>
        decide (row.actualBoost ≥ boostMinBoostPressure))
      match filteredData with
      | [] =>
        some (boostEmptyResult boostTargetCol actualBoostCol wastegateCol timeRange
          boostNoDataError)
      | _ :: _ =>
        let final := filteredData.enum.foldl
          (fun st p =>
            boostStep tune thresholds boostTargetCol.isSome wastegateCol.isSome
              st p.1 p.2)
          BoostScanState.initial
        let grouped := groupBoostEvents final.events
        some
          { events := grouped
            statistics :=
              { totalDataPoints := filteredData.length
                avgBoostError := final.totalError / filteredData.length
                avgBoostErrorAbs := final.totalErrorAbs / filteredData.length
                maxOvershoot := final.maxOvershoot
                maxUndershoot := final.maxUndershoot
                inTargetPercent := (final.inTargetCount : ℚ) / filteredData.length * 100
                overshootEvents :=
                  (grouped.filter (fun e => e.eventType == "overshoot")).length
                undershootEvents :=
                  (grouped.filter (fun e => e.eventType == "undershoot")).length
                limitViolations := 0
                criticalEvents := 0
                severeEvents := 0
                moderateEvents := 0
                mildEvents := 0
                wastegateSaturatedEvents := 0
                avgWastegateDC := if 0 < final.wastegateCount then
                    final.totalWastegateDC / final.wastegateCount else 0
                timeRange := timeRange }
            boostTargetColumn := boostTargetCol
            actualBoostColumn := actualBoostCol
            wastegateColumn := wastegateCol
            error := none }

/-- C4 (amended): when a required column is not found on a non-empty log,
the AFR and boost analyzers return a well-formed result object with an empty
events list, zeroed statistics and a human-readable error string (total
functions: no exception); when the log is empty, `analyze()` returns JS
`null` (`none`), not a result object. -/
theorem analyzer_missing_input_handling (r0 : AfrRow) (rows : List AfrRow)
    (b0 : BoostRow) (brows : List BoostRow) (columns : List String) (tr : ℚ × ℚ)
    (tuneLoaded : Bool) (peModeOf : ℚ → ℚ → ℚ → Bool)
    (peTargetOf : ℚ → ℚ → Option ℚ) (tune : Option BoostTuneView) :
    ((afrFindColumn columns afrTargetNames).isNone ∨
        (afrFindColumn columns afrMeasuredNames).isNone →
      afrAnalyze (r0 :: rows) columns tr tuneLoaded peModeOf peTargetOf =
        some { events := [], statistics := emptyAfrStatistics tr,
               targetColumn := afrFindColumn columns afrTargetNames,
               measuredColumn := afrFindColumn columns afrMeasuredNames,
               error := some afrMissingColumnsError } ∧
      afrMissingColumnsError ≠ "") ∧
    ((analyzerUtilsFindColumn columns actualBoostAliases).isNone →
      boostAnalyze (b0 :: brows) columns tr tune =
        some (boostEmptyResult (analyzerUtilsFindColumn columns boostTargetAliases)
          (analyzerUtilsFindColumn columns actualBoostAliases)
          (analyzerUtilsFindColumn columns wastegateDCAliases) tr
          boostMissingColumnError) ∧
      boostMissingColumnError ≠ "") ∧
    afrAnalyze [] columns tr tuneLoaded peModeOf peTargetOf = none ∧
    boostAnalyze [] columns tr tune = none := by
  refine ⟨?_, ?_, rfl, rfl⟩
  · intro hmiss
    constructor
    · have hcond : ((afrFindColumn columns afrTargetNames).isNone ||
          (afrFindColumn columns afrMeasuredNames).isNone) = true := by
        rcases hmiss with h | h <;> simp [h]
      simp only [afrAnalyze, hcond, if_pos]
    · intro h
      exact absurd h (by simp [afrMissingColumnsError])
  · intro hmiss
    constructor
    · simp only [boostAnalyze, hmiss, if_pos]
    · intro h
      exact absurd h (by simp [boostMissingColumnError])

/-- Counterexample for C4 as stated: on an empty log both analyzers return
JS `null` (`none`), not a well-formed empty result object. -/
theorem analyzer_empty_log_returns_null :
    afrAnalyze [] ["Time (s)"] (0, 0) false (fun _ _ _ => false) (fun _ _ => none) =
        none ∧
      boostAnalyze [] ["Time (s)"] (0, 0) none = none :=
  ⟨rfl, rfl⟩

/-- Witness for C4 (amended) with an empty header list, on which neither AFR
column resolves. -/
theorem analyzer_missing_input_handling_witness :
    (afrFindColumn [] afrTargetNames).isNone = true ∧
      afrAnalyze [afrRow0] [] (0, 0) false (fun _ _ _ => false) (fun _ _ => none) =
        some { events := [], statistics := emptyAfrStatistics (0, 0),
               targetColumn := afrFindColumn [] afrTargetNames,
               measuredColumn := afrFindColumn [] afrMeasuredNames,
               error := some afrMissingColumnsError } :=
  ⟨by decide,
    ((analyzer_missing_input_handling afrRow0 []
        ⟨0, 0, 0, 0, 0, 0, 0⟩ [] [] (0, 0) false (fun _ _ _ => false)
        (fun _ _ => none) none).1 (Or.inl (by decide))).1⟩

/-! ## Knock event grouping (src/analysis/knockDetector.js) -/

/-- JS `Math.min(...)` over a non-empty list. -/
def listMinD : List ℚ → ℚ
  | [] => 0
  | x :: xs => xs.foldl min x

/-- JS `reduce((prev, cur) => score(cur) < score(prev) ? cur : prev)`. -/
def mostNegativeBy {α : Type} (score : α → ℚ) (first : α) (rest : List α) : α :=
  rest.foldl (fun prev cur => if score cur < score prev then cur else prev) first

/-- A raw knock candidate event (`detectKnockEvents` push, knockDetector.js
lines 160-175). -/
structure KnockRawEvent where
  idx : ℕ
  time : ℚ
  knockRetard : ℚ
  rpm : ℚ
  throttle : ℚ
  load : ℚ
  afr : ℚ
  boost : ℚ
  coolantTemp : ℚ
  intakeTemp : ℚ
  severity : String
  isPEMode : Bool
  iam : Option ℚ
  isLowLoad : Bool
deriving DecidableEq

/-- A grouped knock event (`createGroupedEvent`, knockDetector.js lines
377-423). -/
structure KnockGroupedEvent where
  idx : ℕ
  time : ℚ
  endTime : ℚ
  duration : ℚ
  knockRetard : ℚ
  maxKnockRetard : ℚ
  avgKnockRetard : ℚ
  rpm : ℤ
  throttle : ℚ
  load : ℚ
  afr : ℚ
  boost : ℚ
  coolantTemp : ℚ
  intakeTemp : ℚ
  severity : String
  isPEMode : Bool
  isLowLoad : Bool
  iam : Option ℚ
  eventCount : ℕ
  recoveryRate : Option ℚ
  recoveryTime : Option ℚ
  slowRecovery : Bool
  persistentKnock : Bool
deriving DecidableEq

/-- `KnockDetector.createGroupedEvent(eventGroup)` (lines 377-423): the
group's most negative sample supplies retard and severity, context is
averaged; recovery fields are filled by the later recovery pass. -/
def knockCreateGroupedEvent : List KnockRawEvent → KnockGroupedEvent
  | [] =>
    { idx := 0, time := 0, endTime := 0, duration := 0, knockRetard := 0,
      maxKnockRetard := 0, avgKnockRetard := 0, rpm := 0, throttle := 0, load := 0,
      afr := 0, boost := 0, coolantTemp := 0, intakeTemp := 0, severity := "",
      isPEMode := false, isLowLoad := false, iam := none, eventCount := 0,
      recoveryRate := none, recoveryTime := none, slowRecovery := false,
      persistentKnock := false }
  | first :: rest =>
    let g := first :: rest
    let mostSevere := mostNegativeBy (·.knockRetard) first rest
    let avgLoad := ratAvg (g.map (·.load))
    { idx := mostSevere.idx
      time := first.time
      endTime := (g.getLastD first).time
      duration := (g.getLastD first).time - first.time
      knockRetard := mostSevere.knockRetard
      maxKnockRetard := listMinD (g.map (·.knockRetard))
      avgKnockRetard := ratAvg (g.map (·.knockRetard))
      rpm := ratRound (ratAvg (g.map (·.rpm)))
      throttle := ratAvg (g.map (·.throttle))
      load := avgLoad
      afr := ratAvg (g.map (·.afr))
      boost := ratAvg (g.map (·.boost))
      coolantTemp := ratAvg (g.map (·.coolantTemp))
      intakeTemp := ratAvg (g.map (·.intakeTemp))
      severity := mostSevere.severity
      isPEMode := g.any (·.isPEMode)
      isLowLoad := avgLoad < knockSensitivityLowLoad
      iam := match g.findSome? (·.iam) with
        | some v => if v = 0 then none else some v
        | none => none
      eventCount := g.length
      recoveryRate := none
      recoveryTime := none
      slowRecovery := false
      persistentKnock := false }

/-- `KnockDetector.groupKnockEvents(events)` (lines 344-375): the chain
grouping with the 0.1 s knock window (the loop is a verbatim copy of
`AnalyzerUtils.groupEventsByTime`). -/
def groupKnockEvents (events : List KnockRawEvent) : List KnockGroupedEvent :=
  groupEventsByTime (·.time) events knockGroupingTimeWindow knockCreateGroupedEvent

/-! ## Fuel trim event grouping (src/unnamed/part_006, FuelTrimAnalyzer) -/

/-- FuelTrim grouping window in seconds (part_006 line 7). -/
def fuelTrimGroupingTimeWindow : ℚ := 1/2
/-- Minimum grouped-event duration in seconds (part_006 line 8). -/
def fuelTrimMinimumDuration : ℚ := 3/10

/-- A raw fuel-trim event.  PE-mode events (part_006 lines 102-113) carry no
`severity`/`isColdStart`/`isAcceleration`/`ect`/`iat` fields; those are
`none` here, matching the JS `undefined`. -/
structure FuelTrimRawEvent where
  idx : ℕ
  time : ℚ
  shortTermTrim : ℚ
  rpm : ℚ
  throttle : ℚ
  load : ℚ
  afr : ℚ
  eventType : String
  severity : Option String
  isPEMode : Bool
  isAbnormalInPEMode : Bool
  isColdStart : Option Bool
  isAcceleration : Option Bool
  ect : Option ℚ
  iat : Option ℚ
deriving DecidableEq

/-- A grouped fuel-trim event (part_006 lines 277-315). -/
structure FuelTrimGroupedEvent where
  idx : ℕ
  time : ℚ
  endTime : ℚ
  duration : ℚ
  shortTermTrim : ℚ
  maxShortTermTrim : ℚ
  avgShortTermTrim : ℚ
  rpm : ℤ
  throttle : ℚ
  load : ℚ
  afr : ℚ
  eventType : String
  severity : String
  isPEMode : Bool
  isAbnormalInPEMode : Bool
  isColdStart : Bool
  isAcceleration : Bool
  eventCount : ℕ
deriving DecidableEq

/-- `FuelTrimAnalyzer.createGroupedEvent(eventGroup)` (part_006 lines
277-315). -/
def fuelTrimCreateGroupedEvent : List FuelTrimRawEvent → FuelTrimGroupedEvent
  | [] =>
    { idx := 0, time := 0, endTime := 0, duration := 0, shortTermTrim := 0,
      maxShortTermTrim := 0, avgShortTermTrim := 0, rpm := 0, throttle := 0,
      load := 0, afr := 0, eventType := "", severity := "normal", isPEMode := false,
      isAbnormalInPEMode := false, isColdStart := false, isAcceleration := false,
      eventCount := 0 }
  | first :: rest =>
    let g := first :: rest
    let mostSevere := mostSevereBy (fun e => |e.shortTermTrim|) first rest
    { idx := mostSevere.idx
      time := first.time
      endTime := (g.getLastD first).time
      duration := (g.getLastD first).time - first.time
      shortTermTrim := mostSevere.shortTermTrim
      maxShortTermTrim := listMaxD (g.map fun e => |e.shortTermTrim|) *
        (if mostSevere.shortTermTrim < 0 then -1 else 1)
      avgShortTermTrim := ratAvg (g.map (·.shortTermTrim))
      rpm := ratRound (ratAvg (g.map (·.rpm)))
      throttle := ratAvg (g.map (·.throttle))
      load := ratAvg (g.map (·.load))
      afr := ratAvg (g.map (·.afr))
      eventType := mostSevere.eventType
      severity := match mostSevere.severity with
        | some s => s
        | none => "normal"
      isPEMode := g.any (·.isPEMode)
      isAbnormalInPEMode := g.any (·.isAbnormalInPEMode)
      isColdStart := g.any (fun e => e.isColdStart == some true)
      isAcceleration := g.any (fun e => e.isAcceleration == some true)
      eventCount := g.length }

/-- `FuelTrimAnalyzer.groupEventsByType(eventList)` (part_006 lines
244-275): the chain grouping with the 0.5 s fuel-trim window. -/
def fuelTrimGroupEventsByType (eventList : List FuelTrimRawEvent) :
    List FuelTrimGroupedEvent :=
  groupEventsByTime (·.time) eventList fuelTrimGroupingTimeWindow
    fuelTrimCreateGroupedEvent

/-! ## Load limit event grouping (src/analysis/loadLimitAnalyzer.js) -/

/-- Load-limit grouping window in seconds (loadLimitAnalyzer.js line 6). -/
def loadLimitGroupingTimeWindow : ℚ := 1/2

/-- A raw load-limit event (loadLimitAnalyzer.js lines 146-159). -/
structure LoadLimitRawEvent where
  idx : ℕ
  time : ℚ
  load : ℚ
  loadLimit : ℚ
  loadRatio : ℚ
  rpm : ℚ
  throttle : ℚ
  boost : ℚ
  fuelCut : Bool
  injectorPW : ℚ
  eventType : String
  severity : String
deriving DecidableEq

/-- A grouped load-limit event (loadLimitAnalyzer.js lines 240-279). -/
structure LoadLimitGroupedEvent where
  idx : ℕ
  time : ℚ
  endTime : ℚ
  duration : ℚ
  load : ℚ
  maxLoad : ℚ
  loadLimit : ℚ
  loadRatio : ℚ
  maxLoadRatio : ℚ
  rpm : ℤ
  throttle : ℚ
  boost : ℚ
  fuelCut : Bool
  eventType : String
  severity : String
  eventCount : ℕ
deriving DecidableEq

/-- `LoadLimitAnalyzer.createGroupedEvent(eventGroup)` (lines 240-279). -/
def loadLimitCreateGroupedEvent : List LoadLimitRawEvent → LoadLimitGroupedEvent
  | [] =>
    { idx := 0, time := 0, endTime := 0, duration := 0, load := 0, maxLoad := 0,
      loadLimit := 0, loadRatio := 0, maxLoadRatio := 0, rpm := 0, throttle := 0,
      boost := 0, fuelCut := false, eventType := "", severity := "", eventCount := 0 }
  | first :: rest =>
    let g := first :: rest
    let mostSevere := mostSevereBy (·.loadRatio) first rest
    { idx := mostSevere.idx
      time := first.time
      endTime := (g.getLastD first).time
      duration := (g.getLastD first).time - first.time
      load := mostSevere.load
      maxLoad := listMaxD (g.map (·.load))
      loadLimit := ratAvg (g.map (·.loadLimit))
      loadRatio := mostSevere.loadRatio
      maxLoadRatio := listMaxD (g.map (·.loadRatio))
      rpm := ratRound (ratAvg (g.map (·.rpm)))
      throttle := ratAvg (g.map (·.throttle))
      boost := ratAvg (g.map (·.boost))
      fuelCut := g.any (·.fuelCut)
      eventType := mostSevere.eventType
      severity := mostSevere.severity
      eventCount := g.length }

/-- `LoadLimitAnalyzer.groupLoadLimitEvents(events)` (lines 207-238): typed
chain grouping with the 0.5 s window — merging requires matching
`eventType`. -/
def groupLoadLimitEvents (events : List LoadLimitRawEvent) :
    List LoadLimitGroupedEvent :=
  groupEventsByTimeAndType (·.time) (·.eventType) events loadLimitGroupingTimeWindow
    loadLimitCreateGroupedEvent

/-! ## IAM analyzer (src/unnamed/part_007, class IAMAnalyzer) -/

/-- Low-IAM threshold (part_007 line 470). -/
def iamLowThreshold : ℚ := 3/10
/-- Critical-IAM threshold (part_007 line 471). -/
def iamCriticalThreshold : ℚ := 1/5
/-- IAM grouping window in seconds (part_007 line 472). -/
def iamGroupingTimeWindow : ℚ := 1
/-- Default initial IAM (part_007 line 473). -/
def iamInitDefault : ℚ := 1/2
/-- Stuck-low duration threshold in seconds (part_007 line 546). -/
def iamStuckLowThreshold : ℚ := 5

/-- One row as read by `IAMAnalyzer.analyze`: `iamRaw` models
`parseFloat(row[iamCol]) || 0`, the context fields `row[col] || 0`. -/
structure IamRow where
  time : ℚ
  iamRaw : ℚ
  rpm : ℚ
  throttle : ℚ
  load : ℚ
  knockRetard : ℚ
deriving DecidableEq

/-- Scale normalization (part_007 lines 552-555): values above `1` are read
as a 0-100 percentage. -/
def iamNormalize (x : ℚ) : ℚ := if x > 1 then x / 100 else x

/-- A raw IAM event.  Stuck-low records (part_007 lines 614-626) carry
`endTime`/`duration`/`minIAM`; per-sample records (lines 644-658) carry
`previousIAM`/`dropAmount`/`knockRetard`; absent fields are `none`. -/
structure IamRawEvent where
  idx : ℕ
  time : ℚ
  endTime : Option ℚ
  duration : Option ℚ
  iam : ℚ
  minIAM : Option ℚ
  previousIAM : Option ℚ
  dropAmount : Option ℚ
  rpm : ℚ
  throttle : ℚ
  load : ℚ
  knockRetard : Option ℚ
  eventType : String
  severity : String
deriving DecidableEq

/-- An `iamDrops` entry (part_007 lines 577-587). -/
structure IamDrop where
  time : ℚ
  iam : ℚ
  previousIAM : ℚ
  dropAmount : ℚ
  rpm : ℚ
  throttle : ℚ
  load : ℚ
  knockRetard : ℚ
deriving DecidableEq

/-- A `recoveryRates` entry (part_007 lines 592-599). -/
structure IamRecovery where
  time : ℚ
  iam : ℚ
  previousIAM : ℚ
  recoveryAmount : ℚ
  timeSinceLastDrop : ℚ
deriving DecidableEq

/-- Mutable state of the `analyze` row loop (part_007 lines 535-546). -/
structure IamScanState where
  events : List IamRawEvent
  validCount : ℕ
  totalIAM : ℚ
  minIAM : ℚ
  maxIAM : ℚ
  currentIAM : ℚ
  previousIAM : ℚ
  drops : List IamDrop
  recoveries : List IamRecovery
  stuckStart : Option ℚ
  stuckDuration : ℚ
deriving DecidableEq

def IamScanState.initial (iamInit : ℚ) : IamScanState :=
  { events := [], validCount := 0, totalIAM := 0, minIAM := 1, maxIAM := 0,
    currentIAM := iamInit, previousIAM := iamInit, drops := [], recoveries := [],
    stuckStart := none, stuckDuration := 0 }

/-- One iteration of the `analyze` row loop (part_007 lines 548-661):
normalize, skip invalid, track statistics, record drops/recoveries, track
the stuck-low interval (emitting a `stuck_low` event only when a sample at
or above the low threshold ends an interval of at least 5 s), then push the
per-sample classification event. -/
def iamStep (st : IamScanState) (idx : ℕ) (row : IamRow) : IamScanState :=
  let iam := iamNormalize row.iamRaw
  if iam ≤ 0 then st
  else
    let minIAM' := if iam < st.minIAM then iam else st.minIAM
    let maxIAM' := if iam > st.maxIAM then iam else st.maxIAM
    let iamDrop := st.previousIAM - iam
    let drops' := if iamDrop > 1/20 then
        st.drops ++ [{ time := row.time, iam := iam, previousIAM := st.previousIAM,
                       dropAmount := iamDrop, rpm := row.rpm, throttle := row.throttle,
                       load := row.load, knockRetard := row.knockRetard }]
      else st.drops
    let iamRecovery := iam - st.previousIAM
    let recoveries' := if iamRecovery > 1/100 ∧ st.previousIAM < 1 then
        st.recoveries ++ [{ time := row.time, iam := iam,
                            previousIAM := st.previousIAM,
                            recoveryAmount := iamRecovery,
                            timeSinceLastDrop := match drops'.getLast? with
                              | some d => row.time - d.time
                              | none => 0 }]
      else st.recoveries
    let stuckRes : Option ℚ × ℚ × List IamRawEvent :=
      if iam < iamLowThreshold then
        match st.stuckStart with
        | none => (some row.time, st.stuckDuration, [])
        | some t0 =>
          (some t0,
            if row.time - t0 > st.stuckDuration then row.time - t0 else st.stuckDuration,
            [])
      else
        (none, st.stuckDuration,
          match st.stuckStart with
          | some t0 =>
            if row.time - t0 ≥ iamStuckLowThreshold then
              [{ idx := idx, time := t0, endTime := some row.time,
                 duration := some (row.time - t0), iam := iam,
                 minIAM := some minIAM', previousIAM := none, dropAmount := none,
                 rpm := row.rpm, throttle := row.throttle, load := row.load,
                 knockRetard := none, eventType := "stuck_low",
                 severity := if iam < iamCriticalThreshold then "critical"
                   else "severe" }]
            else []
          | none => [])
    let eventType := if iam < iamCriticalThreshold then "low_iam"
      else if iam < iamLowThreshold then "low_iam" else "normal"
    let severity := if iam < iamCriticalThreshold then "critical"
      else if iam < iamLowThreshold then "severe" else "normal"
    let perSample : List IamRawEvent :=
      if eventType ≠ "normal" ∨ iamDrop > 1/10 then
        [{ idx := idx, time := row.time, endTime := none, duration := none, iam := iam,
           minIAM := none, previousIAM := some st.previousIAM,
           dropAmount := some iamDrop, rpm := row.rpm, throttle := row.throttle,
           load := row.load, knockRetard := some row.knockRetard,
           eventType := eventType, severity := severity }]
      else []
    { events := st.events ++ stuckRes.2.2 ++ perSample
      validCount := st.validCount + 1
      totalIAM := st.totalIAM + iam
      minIAM := minIAM'
      maxIAM := maxIAM'
      currentIAM := iam
      previousIAM := iam
      drops := drops'
      recoveries := recoveries'
      stuckStart := stuckRes.1
      stuckDuration := stuckRes.2.1 }

/-- The row scan of `IAMAnalyzer.analyze`: fold `iamStep` over the indexed
rows. -/
def iamScan (iamInit : ℚ) (rows : List IamRow) : IamScanState :=
  rows.enum.foldl (fun st p => iamStep st p.1 p.2) (IamScanState.initial iamInit)

/-- A grouped IAM event (part_007 lines 744-780). -/
structure IamGroupedEvent where
  idx : ℕ
  time : ℚ
  endTime : ℚ
  duration : ℚ
  iam : ℚ
  minIAM : ℚ
  maxIAM : ℚ
  avgIAM : ℚ
  dropAmount : ℚ
  rpm : ℤ
  throttle : ℚ
  load : ℚ
  knockRetard : ℚ
  eventType : String
  severity : String
  eventCount : ℕ
deriving DecidableEq

/-- `IAMAnalyzer.createGroupedEvent(eventGroup)` (lines 744-780): the lowest
IAM sample supplies value/type/severity; note `endTime` is the last group
member's `time` field (a raw stuck-low record's own `endTime` is not
consulted). -/
def iamCreateGroupedEvent : List IamRawEvent → IamGroupedEvent
  | [] =>
    { idx := 0, time := 0, endTime := 0, duration := 0, iam := 0, minIAM := 0,
      maxIAM := 0, avgIAM := 0, dropAmount := 0, rpm := 0, throttle := 0, load := 0,
      knockRetard := 0, eventType := "", severity := "", eventCount := 0 }
  | first :: rest =>
    let g := first :: rest
    let mostSevere := mostNegativeBy (·.iam) first rest
    { idx := mostSevere.idx
      time := first.time
      endTime := (g.getLastD first).time
      duration := (g.getLastD first).time - first.time
      iam := mostSevere.iam
      minIAM := listMinD (g.map (·.iam))
      maxIAM := listMaxD (g.map (·.iam))
      avgIAM := ratAvg (g.map (·.iam))
      dropAmount := (mostSevere.dropAmount.getD 0)
      rpm := ratRound (ratAvg (g.map (·.rpm)))
      throttle := ratAvg (g.map (·.throttle))
      load := ratAvg (g.map (·.load))
      knockRetard := ratAvg (g.map (fun e => e.knockRetard.getD 0))
      eventType := mostSevere.eventType
      severity := mostSevere.severity
      eventCount := g.length }

/-- `IAMAnalyzer.groupIAMEvents(events)` (lines 711-742): typed chain
grouping with the 1.0 s window. -/
def groupIAMEvents (events : List IamRawEvent) : List IamGroupedEvent :=
  groupEventsByTimeAndType (·.time) (·.eventType) events iamGroupingTimeWindow
    iamCreateGroupedEvent

/-- IAM statistics (part_007 lines 689-702). -/
structure IamStatistics where
  totalDataPoints : ℕ
  currentIAM : ℚ
  minIAM : ℚ
  maxIAM : ℚ
  avgIAM : ℚ
  lowIAMEvents : ℕ
  criticalIAMEvents : ℕ
  stuckLowEvents : ℕ
  recoveryRate : ℚ
  knockCorrelation : ℚ
  iamDrops : ℕ
  timeRange : ℚ × ℚ
deriving DecidableEq

structure IamResult where
  events : List IamGroupedEvent
  statistics : IamStatistics
  iamColumn : Option String
  error : Option String
deriving DecidableEq

/-- `IAMAnalyzer.analyze()` without the column-resolution error path (the
rows are presented already resolved; a missing IAM column yields the same
empty-result shape as the other analyzers).  `iamInitParam` is the tune
file's `iam_init` when loaded and present; `knockTimes` are the knock
detector's event times when it is available (external collaborators). -/
def iamAnalyzeResolved (rows : List IamRow) (timeRange : ℚ × ℚ)
    (iamInitParam : Option ℚ) (knockTimes : Option (List ℚ)) (iamCol : Option String) :
    Option IamResult :=
  match rows with
  | [] => none
  | _ :: _ =>
    let iamInit := iamInitParam.getD iamInitDefault
    let final := iamScan iamInit rows
    let grouped := groupIAMEvents final.events
    let avgRecoveryRate :=
      match final.recoveries with
      | [] => 0
      | r0 :: _ =>
        let totalRecovery := (final.recoveries.map (·.recoveryAmount)).sum
        let totalTime := ((final.recoveries.getLastD r0).time) - r0.time
        if 0 < totalTime then totalRecovery / totalTime else 0
    let knockCorrelation :=
      match knockTimes with
      | none => 0
      | some ts =>
        let correlated := final.drops.filter
          (fun d => ts.any (fun kt => decide (|kt - d.time| < 1)))
        if 0 < final.drops.length then
          (correlated.length : ℚ) / final.drops.length * 100
        else 0
    some
      { events := grouped
        statistics :=
          { totalDataPoints := final.validCount
            currentIAM := final.currentIAM
            minIAM := final.minIAM
            maxIAM := final.maxIAM
            avgIAM := if 0 < final.validCount then final.totalIAM / final.validCount
              else 0
            lowIAMEvents := (grouped.filter (fun e =>
              e.severity == "severe" || e.severity == "critical")).length
            criticalIAMEvents :=
              (grouped.filter (fun e => e.severity == "critical")).length
            stuckLowEvents :=
              (grouped.filter (fun e => e.eventType == "stuck_low")).length
            recoveryRate := avgRecoveryRate
            knockCorrelation := knockCorrelation
            iamDrops := final.drops.length
            timeRange := timeRange }
        iamColumn := iamCol
        error := none }

/-! ## Temperature analyzer grouping windows

The coolant/intake temperature analyzer classes are not among the
repository's source files; only their configuration is (src/unnamed/part_002
lines 148-162) and §4.7 of the spec describes them. -/

/-- Coolant grouping window in seconds
(`Config.temperature.coolant.groupingTimeWindow`, part_002 line 154). -/
def coolantGroupingTimeWindow : ℚ := 1

/-- Intake grouping window in seconds
(`Config.temperature.intake.groupingTimeWindow`, part_002 line 161). -/
def intakeGroupingTimeWindow : ℚ := 1/2

/-- Modelled from the spec: the coolant-temperature analyzer class is
missing from the sources; per §4.7 it groups its events with the shared
time-window clustering and the 1.0 s coolant window.  Events are abstracted
to their timestamps and groups are returned as lists. -/
def coolantGroupEventsModel (events : List ℚ) : List (List ℚ) :=
  groupEventsByTime id events coolantGroupingTimeWindow (fun g => g)

/-- Modelled from the spec: the intake-air-temperature analyzer class is
missing from the sources; per §4.7 it groups its events with the shared
time-window clustering and the 0.5 s intake window. -/
def intakeGroupEventsModel (events : List ℚ) : List (List ℚ) :=
  groupEventsByTime id events intakeGroupingTimeWindow (fun g => g)

/-! ## Two-sample grouping behaviour -/

lemma sortByTime_pair {α : Type} (time : α → ℚ) (e1 e2 : α)
    (h : time e1 ≤ time e2) : sortByTime time [e1, e2] = [e1, e2] := by
  simp [sortByTime, insertByTime, not_lt.mpr h]

lemma groupEventsByTime_pair {α β : Type} (time : α → ℚ) (w : ℚ) (f : List α → β)
    (e1 e2 : α) (h : time e1 ≤ time e2) :
    groupEventsByTime time [e1, e2] w f =
      if time e2 - time e1 ≤ w then [f [e1, e2]] else [f [e1], f [e2]] := by
  have hs := sortByTime_pair time e1 e2 h
  unfold groupEventsByTime
  rw [hs]
  by_cases hw : time e2 - time e1 ≤ w
  · simp [groupChainAux, hw]
  · simp [groupChainAux, hw]

lemma groupEventsByTimeAndType_pair {α β : Type} (time : α → ℚ)
    (etype : α → String) (w : ℚ) (f : List α → β) (e1 e2 : α)
    (h : time e1 ≤ time e2) (hty : etype e1 = etype e2) :
    groupEventsByTimeAndType time etype [e1, e2] w f =
      if time e2 - time e1 ≤ w then [f [e1, e2]] else [f [e1], f [e2]] := by
  have hs := sortByTime_pair time e1 e2 h
  unfold groupEventsByTimeAndType
  rw [hs]
  by_cases hw : time e2 - time e1 ≤ w
  · simp [groupTypedChainAux, hw, hty]
  · simp [groupTypedChainAux, hw, hty]

lemma pair_group_count {β : Type} {l : List β} {x y z : β} {w d : ℚ}
    (hl : l = if d ≤ w then [x] else [y, z]) :
    ((l.length = 1) ↔ d ≤ w) ∧ ((l.length = 2) ↔ w < d) := by
  by_cases hw : d ≤ w
  · subst hl
    simp [hw, not_lt.mpr hw]
  · subst hl
    simp [hw, not_le.mp hw]

/-- C3 (amended): two consecutive same-type candidate samples at times
`t ≤ t + Δ` merge into one grouped event iff `Δ ≤ window`, and form two
distinct events iff `window < Δ`, for every analyzer's grouping — with the
windows knock 0.1 s, boost 0.5 s, AFR 1.0 s, fuel trim 0.5 s, load limit
0.5 s (not the claimed 1.0 s), IAM 1.0 s, coolant 1.0 s, intake 0.5 s. -/
theorem grouping_window_two_samples :
    knockGroupingTimeWindow = 1/10 ∧ boostGroupingTimeWindow = 1/2 ∧
    afrGroupingTimeWindow = 1 ∧ fuelTrimGroupingTimeWindow = 1/2 ∧
    loadLimitGroupingTimeWindow = 1/2 ∧ iamGroupingTimeWindow = 1 ∧
    coolantGroupingTimeWindow = 1 ∧ intakeGroupingTimeWindow = 1/2 ∧
    (∀ e1 e2 : KnockRawEvent, e1.time ≤ e2.time →
      (((groupKnockEvents [e1, e2]).length = 1) ↔
        e2.time - e1.time ≤ knockGroupingTimeWindow) ∧
      (((groupKnockEvents [e1, e2]).length = 2) ↔
        knockGroupingTimeWindow < e2.time - e1.time)) ∧
    (∀ e1 e2 : BoostRawEvent, e1.time ≤ e2.time →
      (((boostGroupEventsOfType [e1, e2]).length = 1) ↔
        e2.time - e1.time ≤ boostGroupingTimeWindow) ∧
      (((boostGroupEventsOfType [e1, e2]).length = 2) ↔
        boostGroupingTimeWindow < e2.time - e1.time)) ∧
    (∀ e1 e2 : AfrRawEvent, e1.time ≤ e2.time →
      (((afrGroupEventsByType [e1, e2]).length = 1) ↔
        e2.time - e1.time ≤ afrGroupingTimeWindow) ∧
      (((afrGroupEventsByType [e1, e2]).length = 2) ↔
        afrGroupingTimeWindow < e2.time - e1.time)) ∧
    (∀ e1 e2 : FuelTrimRawEvent, e1.time ≤ e2.time →
      (((fuelTrimGroupEventsByType [e1, e2]).length = 1) ↔
        e2.time - e1.time ≤ fuelTrimGroupingTimeWindow) ∧
      (((fuelTrimGroupEventsByType [e1, e2]).length = 2) ↔
        fuelTrimGroupingTimeWindow < e2.time - e1.time)) ∧
    (∀ e1 e2 : LoadLimitRawEvent, e1.time ≤ e2.time → e1.eventType = e2.eventType →
      (((groupLoadLimitEvents [e1, e2]).length = 1) ↔
        e2.time - e1.time ≤ loadLimitGroupingTimeWindow) ∧
      (((groupLoadLimitEvents [e1, e2]).length = 2) ↔
        loadLimitGroupingTimeWindow < e2.time - e1.time)) ∧
    (∀ e1 e2 : IamRawEvent, e1.time ≤ e2.time → e1.eventType = e2.eventType →
      (((groupIAMEvents [e1, e2]).length = 1) ↔
        e2.time - e1.time ≤ iamGroupingTimeWindow) ∧
      (((groupIAMEvents [e1, e2]).length = 2) ↔
        iamGroupingTimeWindow < e2.time - e1.time)) ∧
    (∀ t1 t2 : ℚ, t1 ≤ t2 →
      (((coolantGroupEventsModel [t1, t2]).length = 1) ↔
        t2 - t1 ≤ coolantGroupingTimeWindow) ∧
      (((coolantGroupEventsModel [t1, t2]).length = 2) ↔
        coolantGroupingTimeWindow < t2 - t1)) ∧
    (∀ t1 t2 : ℚ, t1 ≤ t2 →
      (((intakeGroupEventsModel [t1, t2]).length = 1) ↔
        t2 - t1 ≤ intakeGroupingTimeWindow) ∧
      (((intakeGroupEventsModel [t1, t2]).length = 2) ↔
        intakeGroupingTimeWindow < t2 - t1)) := by
  refine ⟨rfl, rfl, rfl, rfl, rfl, rfl, rfl, rfl, ?_, ?_, ?_, ?_, ?_, ?_, ?_, ?_⟩
  · intro e1 e2 h
    have hp := groupEventsByTime_pair (fun e : KnockRawEvent => e.time)
      knockGroupingTimeWindow knockCreateGroupedEvent e1 e2 h
    unfold groupKnockEvents
    exact pair_group_count hp
  · intro e1 e2 h
    have hp := groupEventsByTime_pair (fun e : BoostRawEvent => e.time)
      boostGroupingTimeWindow boostCreateGroupedEvent e1 e2 h
    unfold boostGroupEventsOfType
    exact pair_group_count hp
  · intro e1 e2 h
    have hp := groupEventsByTime_pair (fun e : AfrRawEvent => e.time)
      afrGroupingTimeWindow afrCreateGroupedEvent e1 e2 h
    unfold afrGroupEventsByType
    exact pair_group_count hp
  · intro e1 e2 h
    have hp := groupEventsByTime_pair (fun e : FuelTrimRawEvent => e.time)
      fuelTrimGroupingTimeWindow fuelTrimCreateGroupedEvent e1 e2 h
    unfold fuelTrimGroupEventsByType
    exact pair_group_count hp
  · intro e1 e2 h hty
    have hp := groupEventsByTimeAndType_pair (fun e : LoadLimitRawEvent => e.time)
      (fun e : LoadLimitRawEvent => e.eventType) loadLimitGroupingTimeWindow
      loadLimitCreateGroupedEvent e1 e2 h hty
    unfold groupLoadLimitEvents
    exact pair_group_count hp
  · intro e1 e2 h hty
    have hp := groupEventsByTimeAndType_pair (fun e : IamRawEvent => e.time)
      (fun e : IamRawEvent => e.eventType) iamGroupingTimeWindow
      iamCreateGroupedEvent e1 e2 h hty
    unfold groupIAMEvents
    exact pair_group_count hp
  · intro t1 t2 h
    have hp := groupEventsByTime_pair (id : ℚ → ℚ) coolantGroupingTimeWindow
      (fun g => g) t1 t2 h
    unfold coolantGroupEventsModel
    exact pair_group_count hp
  · intro t1 t2 h
    have hp := groupEventsByTime_pair (id : ℚ → ℚ) intakeGroupingTimeWindow
      (fun g => g) t1 t2 h
    unfold intakeGroupEventsModel
    exact pair_group_count hp

/-- Concrete same-type load-limit events 0.75 s apart. -/
def llEventA : LoadLimitRawEvent :=
  { idx := 0, time := 0, load := 2, loadLimit := 1, loadRatio := 2, rpm := 3000,
    throttle := 50, boost := 0, fuelCut := false, injectorPW := 3,
    eventType := "limit_violation", severity := "critical" }

def llEventB : LoadLimitRawEvent :=
  { llEventA with idx := 1, time := 3/4 }

/-- Counterexample for C3 as stated: the load-limit grouping window in the
code is 0.5 s, not the claimed 1.0 s — two same-type load-limit samples
0.75 s apart (within the claimed window) form two distinct events. -/
theorem grouping_window_loadlimit_counterexample :
    llEventB.time - llEventA.time ≤ 1 ∧
      (groupLoadLimitEvents [llEventA, llEventB]).length = 2 := by
  constructor
  · norm_num [llEventA, llEventB]
  · have h := groupEventsByTimeAndType_pair (fun e : LoadLimitRawEvent => e.time)
      (fun e : LoadLimitRawEvent => e.eventType)
      loadLimitGroupingTimeWindow loadLimitCreateGroupedEvent llEventA llEventB
      (by norm_num [llEventA, llEventB]) rfl
    unfold groupLoadLimitEvents
    rw [h, if_neg (by norm_num [llEventA, llEventB, loadLimitGroupingTimeWindow])]
    rfl

/-- Witness for C3 (amended): two knock candidates 0.05 s apart merge into
one grouped event. -/
def knockEventA : KnockRawEvent :=
  { idx := 0, time := 0, knockRetard := -3, rpm := 3000, throttle := 40, load := 1,
    afr := 1, boost := 120, coolantTemp := 90, intakeTemp := 30,
    severity := "moderate", isPEMode := false, iam := none, isLowLoad := false }

def knockEventB : KnockRawEvent :=
  { knockEventA with idx := 1, time := 1/20 }

theorem grouping_window_two_samples_witness :
    knockEventB.time - knockEventA.time ≤ knockGroupingTimeWindow ∧
      (groupKnockEvents [knockEventA, knockEventB]).length = 1 :=
  ⟨by norm_num [knockEventA, knockEventB, knockGroupingTimeWindow],
    ((grouping_window_two_samples.2.2.2.2.2.2.2.2.1 knockEventA knockEventB
        (by norm_num [knockEventA, knockEventB])).1).mpr
      (by norm_num [knockEventA, knockEventB, knockGroupingTimeWindow])⟩

/-! ## Membership and preservation lemmas for sorting and grouping -/

lemma mem_insertByTime {α : Type} (time : α → ℚ) (e a : α) (l : List α) :
    a ∈ insertByTime time e l ↔ a = e ∨ a ∈ l := by
  induction l with
  | nil => simp [insertByTime]
  | cons b bs ih =>
    simp only [insertByTime]
    split
    · simp only [List.mem_cons, ih]
      tauto
    · simp [List.mem_cons]

lemma mem_sortByTime {α : Type} (time : α → ℚ) (l : List α) (a : α) :
    a ∈ sortByTime time l ↔ a ∈ l := by
  induction l with
  | nil => simp [sortByTime]
  | cons b bs ih =>
    have hstep : sortByTime time (b :: bs) = insertByTime time b (sortByTime time bs) :=
      rfl
    rw [hstep, mem_insertByTime, ih]
    simp

lemma mostNegativeBy_mem {α : Type} (score : α → ℚ) (first : α) (rest : List α) :
    mostNegativeBy score first rest ∈ first :: rest := by
  induction rest generalizing first with
  | nil => simp [mostNegativeBy]
  | cons b bs ih =>
    have hstep : mostNegativeBy score first (b :: bs) =
        mostNegativeBy score (if score b < score first then b else first) bs := rfl
    rw [hstep]
    have h := ih (if score b < score first then b else first)
    rcases List.mem_cons.mp h with h1 | h1
    · rw [h1]
      by_cases hc : score b < score first
      · simp [hc]
      · simp [hc]
    · simp [h1]

lemma groupTypedChainAux_forall {α β : Type} (time : α → ℚ) (etype : α → String)
    (w : ℚ) (f : List α → β) {Q : α → Prop} {P : β → Prop}
    (hf : ∀ group : List α, group ≠ [] → (∀ e ∈ group, Q e) → P (f group)) :
    ∀ (pending : List α), ∀ (lastE : α) (acc : List α), (∀ e ∈ pending, Q e) →
      (∀ e ∈ acc, Q e) → acc ≠ [] →
      ∀ gE ∈ groupTypedChainAux time etype w f pending lastE acc, P gE := by
  intro pending
  induction pending with
  | nil =>
    intro lastE acc _ hacc hne gE hgE
    simp only [groupTypedChainAux, List.mem_singleton] at hgE
    subst hgE
    apply hf
    · simpa using hne
    · intro e he
      exact hacc e (by simpa using he)
  | cons b bs ih =>
    intro lastE acc hpend hacc hne gE hgE
    simp only [groupTypedChainAux] at hgE
    split at hgE
    · refine ih b (b :: acc) (fun e he => hpend e (List.mem_cons_of_mem _ he)) ?_
        (by simp) gE hgE
      intro e he
      rcases List.mem_cons.mp he with rfl | h
      · exact hpend e (List.mem_cons_self _ _)
      · exact hacc e h
    · rcases List.mem_cons.mp hgE with rfl | h
      · apply hf
        · simpa using hne
        · intro e he
          exact hacc e (by simpa using he)
      · exact ih b [b] (fun e he => hpend e (List.mem_cons_of_mem _ he))
          (by intro e he
              rcases List.mem_singleton.mp he with rfl
              exact hpend e (List.mem_cons_self _ _))
          (by simp) gE h

lemma groupEventsByTimeAndType_forall {α β : Type} (time : α → ℚ)
    (etype : α → String) (w : ℚ) (f : List α → β) (events : List α)
    {Q : α → Prop} {P : β → Prop}
    (hf : ∀ group : List α, group ≠ [] → (∀ e ∈ group, Q e) → P (f group))
    (hev : ∀ e ∈ events, Q e) :
    ∀ gE ∈ groupEventsByTimeAndType time etype events w f, P gE := by
  intro gE hgE
  unfold groupEventsByTimeAndType at hgE
  cases hsort : sortByTime time events with
  | nil => rw [hsort] at hgE; simp at hgE
  | cons e rest =>
    rw [hsort] at hgE
    have hs : ∀ x ∈ e :: rest, Q x := by
      intro x hx
      exact hev x ((mem_sortByTime time events x).mp (hsort ▸ hx))
    exact groupTypedChainAux_forall time etype w f hf rest e [e]
      (fun x hx => hs x (List.mem_cons_of_mem _ hx))
      (fun x hx => hs x (by simp at hx; simp [hx])) (by simp) gE hgE

/-- The eventType of a grouped IAM event is the eventType of one of the
group's members. -/
lemma iamCreateGroupedEvent_type (g : List IamRawEvent) (hne : g ≠ []) :
    ∃ e ∈ g, (iamCreateGroupedEvent g).eventType = e.eventType := by
  match g with
  | [] => exact absurd rfl hne
  | first :: rest =>
    exact ⟨mostNegativeBy (·.iam) first rest, mostNegativeBy_mem _ _ _, rfl⟩

/-! ## IAM stuck-low behaviour (C9) -/

lemma iamStep_below (st : IamScanState) (idx : ℕ) (row : IamRow)
    (hpos : 0 < iamNormalize row.iamRaw)
    (hlow : iamNormalize row.iamRaw < iamLowThreshold) :
    (iamStep st idx row).stuckStart = some (st.stuckStart.getD row.time) ∧
    (iamStep st idx row).events.filter (fun e => e.eventType == "stuck_low") =
      st.events.filter (fun e => e.eventType == "stuck_low") := by
  have h1 : ¬ (iamNormalize row.iamRaw ≤ 0) := not_le.mpr hpos
  simp only [iamStep, if_neg h1, if_pos hlow]
  refine ⟨?_, ?_⟩
  · cases st.stuckStart <;> simp
  · by_cases hcrit : iamNormalize row.iamRaw < iamCriticalThreshold <;>
      cases hss : st.stuckStart <;>
        simp [hcrit, hlow, List.filter_append, List.filter]

lemma iamStep_recovery (st : IamScanState) (idx : ℕ) (row : IamRow) (t0 : ℚ)
    (hpos : 0 < iamNormalize row.iamRaw)
    (hhigh : ¬ iamNormalize row.iamRaw < iamLowThreshold)
    (hss : st.stuckStart = some t0)
    (hdur : iamStuckLowThreshold ≤ row.time - t0) :
    ∃ r : IamRawEvent,
      (iamStep st idx row).events.filter (fun e => e.eventType == "stuck_low") =
        st.events.filter (fun e => e.eventType == "stuck_low") ++ [r] ∧
      r.time = t0 ∧ r.endTime = some row.time ∧ r.eventType = "stuck_low" := by
  have h1 : ¬ (iamNormalize row.iamRaw ≤ 0) := not_le.mpr hpos
  have hncrit : ¬ iamNormalize row.iamRaw < iamCriticalThreshold := by
    intro hc
    exact hhigh (lt_trans hc (by norm_num [iamCriticalThreshold, iamLowThreshold]))
  refine ⟨{ idx := idx, time := t0, endTime := some row.time,
            duration := some (row.time - t0), iam := iamNormalize row.iamRaw,
            minIAM := some (if iamNormalize row.iamRaw < st.minIAM then
              iamNormalize row.iamRaw else st.minIAM),
            previousIAM := none, dropAmount := none, rpm := row.rpm,
            throttle := row.throttle, load := row.load, knockRetard := none,
            eventType := "stuck_low", severity := "severe" }, ?_, rfl, rfl, rfl⟩
  simp only [iamStep, if_neg h1, if_neg hhigh, hss, if_pos hdur, if_neg hncrit]
  by_cases hdrop : st.previousIAM - iamNormalize row.iamRaw > 1/10 <;>
    simp [hdrop, List.filter_append, List.filter]

lemma iamScanFrom_below_keep (rest : List IamRow) :
    ∀ (st : IamScanState) (k : ℕ) (t0 : ℚ),
      (∀ r ∈ rest, 0 < iamNormalize r.iamRaw ∧
        iamNormalize r.iamRaw < iamLowThreshold) →
      st.stuckStart = some t0 →
      ((rest.enumFrom k).foldl (fun s p => iamStep s p.1 p.2) st).stuckStart =
          some t0 ∧
      ((rest.enumFrom k).foldl (fun s p => iamStep s p.1 p.2) st).events.filter
          (fun e => e.eventType == "stuck_low") =
        st.events.filter (fun e => e.eventType == "stuck_low") := by
  induction rest with
  | nil =>
    intro st k t0 _ hss
    exact ⟨by simpa [List.enumFrom] using hss, by simp [List.enumFrom]⟩
  | cons b bs ih =>
    intro st k t0 hall hss
    have hb := hall b (List.mem_cons_self _ _)
    have hstep := iamStep_below st k b hb.1 hb.2
    simp only [List.enumFrom, List.foldl_cons]
    have hss1 : (iamStep st k b).stuckStart = some t0 := by
      rw [hstep.1, hss]
      rfl
    obtain ⟨h1, h2⟩ := ih (iamStep st k b) (k + 1) t0
      (fun r hr => hall r (List.mem_cons_of_mem _ hr)) hss1
    exact ⟨h1, by rw [h2, hstep.2]⟩

/-- After scanning a non-empty run of valid below-threshold samples from the
initial state, the stuck-low tracker holds the run's start time and no
`stuck_low` record has been emitted. -/
lemma iamScan_all_below (iamInit : ℚ) (l0 : IamRow) (lrest : List IamRow)
    (hlows : ∀ r ∈ l0 :: lrest, 0 < iamNormalize r.iamRaw ∧
      iamNormalize r.iamRaw < iamLowThreshold) :
    (iamScan iamInit (l0 :: lrest)).stuckStart = some l0.time ∧
    (iamScan iamInit (l0 :: lrest)).events.filter
      (fun e => e.eventType == "stuck_low") = [] := by
  have h0 := hlows l0 (List.mem_cons_self _ _)
  have hstep := iamStep_below (IamScanState.initial iamInit) 0 l0 h0.1 h0.2
  have hss1 : (iamStep (IamScanState.initial iamInit) 0 l0).stuckStart =
      some l0.time := by
    rw [hstep.1]
    rfl
  have hkeep := iamScanFrom_below_keep lrest
    (iamStep (IamScanState.initial iamInit) 0 l0) 1 l0.time
    (fun r hr => hlows r (List.mem_cons_of_mem _ hr)) hss1
  have hscan : iamScan iamInit (l0 :: lrest) =
      (lrest.enumFrom 1).foldl (fun s p => iamStep s p.1 p.2)
        (iamStep (IamScanState.initial iamInit) 0 l0) := by
    simp [iamScan, List.enum, List.enumFrom]
  rw [hscan]
  refine ⟨hkeep.1, ?_⟩
  rw [hkeep.2, hstep.2]
  rfl

/-- A valid sample at or above the low threshold that ends a tracked
stuck-low interval of less than 5 s emits no `stuck_low` record (the tracker
is merely reset). -/
lemma iamStep_recovery_short (st : IamScanState) (idx : ℕ) (row : IamRow) (t0 : ℚ)
    (hpos : 0 < iamNormalize row.iamRaw)
    (hhigh : ¬ iamNormalize row.iamRaw < iamLowThreshold)
    (hss : st.stuckStart = some t0)
    (hdur : ¬ iamStuckLowThreshold ≤ row.time - t0) :
    (iamStep st idx row).events.filter (fun e => e.eventType == "stuck_low") =
      st.events.filter (fun e => e.eventType == "stuck_low") := by
  have h1 : ¬ (iamNormalize row.iamRaw ≤ 0) := not_le.mpr hpos
  have hncrit : ¬ iamNormalize row.iamRaw < iamCriticalThreshold := by
    intro hc
    exact hhigh (lt_trans hc (by norm_num [iamCriticalThreshold, iamLowThreshold]))
  simp only [iamStep, if_neg h1, if_neg hhigh, hss, if_neg hdur, if_neg hncrit]
  by_cases hdrop : st.previousIAM - iamNormalize row.iamRaw > 1/10 <;>
    simp [hdrop, List.filter_append, List.filter]

/-- A fixed low-IAM sample (IAM 0.25, below the 0.30 threshold). -/
def iamLowRow (t : ℚ) : IamRow :=
  { time := t, iamRaw := 1/4, rpm := 3000, throttle := 20, load := 1,
    knockRetard := 0 }

/-- Seven consecutive low-IAM samples spanning 6 s, running to the log's
end. -/
def iamLowRows : List IamRow :=
  [iamLowRow 0, iamLowRow 1, iamLowRow 2, iamLowRow 3, iamLowRow 4, iamLowRow 5,
   iamLowRow 6]

/-- Per-grouped-event eventType carry-over: grouping same-typed raw events
never invents a `stuck_low` type. -/
lemma groupIAMEvents_no_stuck (events : List IamRawEvent)
    (hev : ∀ e ∈ events, e.eventType ≠ "stuck_low") :
    ∀ gE ∈ groupIAMEvents events, gE.eventType ≠ "stuck_low" := by
  intro gE hgE
  refine @groupEventsByTimeAndType_forall IamRawEvent IamGroupedEvent
    (fun e : IamRawEvent => e.time) (fun e : IamRawEvent => e.eventType)
    iamGroupingTimeWindow iamCreateGroupedEvent events
    (fun e : IamRawEvent => e.eventType ≠ "stuck_low")
    (fun gE : IamGroupedEvent => gE.eventType ≠ "stuck_low") ?_ hev gE hgE
  intro group hne hq
  obtain ⟨e, hmem, heq⟩ := iamCreateGroupedEvent_type group hne
  rw [heq]
  exact hq e hmem

/-- Reduction of the reported `stuckLowEvents` statistic. -/
lemma iamAnalyzeResolved_stuckLowEvents (r0 : IamRow) (rs : List IamRow)
    (tr : ℚ × ℚ) (ii : Option ℚ) (kt : Option (List ℚ)) (c : Option String) :
    (iamAnalyzeResolved (r0 :: rs) tr ii kt c).map
        (fun res => res.statistics.stuckLowEvents) =
      some ((groupIAMEvents (iamScan (ii.getD iamInitDefault) (r0 :: rs)).events).filter
        (fun e => e.eventType == "stuck_low")).length := rfl

/-! ### Counting grouped events of a given type

The typed chain grouping only merges equally-typed raw events, so every
emitted group is type-homogeneous; when the raw events contain exactly one
event of a type, exactly one grouped event of that type is produced. -/

lemma length_filter_insertByTime {α : Type} (time : α → ℚ) (p : α → Bool) (e : α)
    (l : List α) :
    ((insertByTime time e l).filter p).length =
      (l.filter p).length + if p e then 1 else 0 := by
  induction l with
  | nil =>
    simp only [insertByTime, List.filter_nil, List.length_nil, Nat.zero_add]
    by_cases hpe : p e <;> simp [List.filter, hpe]
  | cons a as ih =>
    simp only [insertByTime]
    split
    · simp only [List.filter_cons]
      by_cases hpa : p a <;> simp [hpa, ih] <;> omega
    · simp only [List.filter_cons]
      by_cases hpa : p a <;> by_cases hpe : p e <;> simp [hpa, hpe]

lemma length_filter_sortByTime {α : Type} (time : α → ℚ) (p : α → Bool)
    (l : List α) :
    ((sortByTime time l).filter p).length = (l.filter p).length := by
  induction l with
  | nil => rfl
  | cons a as ih =>
    have hstep : sortByTime time (a :: as) =
        insertByTime time a (sortByTime time as) := rfl
    rw [hstep, length_filter_insertByTime, ih, List.filter_cons]
    by_cases hpa : p a <;> simp [hpa]

/-- The grouped value produced from a homogeneous accumulated group carries
the group's common event type. -/
lemma groupAcc_type {α β : Type} (etype : α → String) (f : List α → β)
    (tyb : β → String)
    (hf : ∀ (a : α) (g : List α), (∀ x ∈ a :: g, etype x = etype a) →
      tyb (f (a :: g)) = etype a)
    (lastE : α) (acc : List α) (hne : acc ≠ [])
    (hhom : ∀ x ∈ acc, etype x = etype lastE) :
    tyb (f acc.reverse) = etype lastE := by
  obtain ⟨a, g, hag⟩ := List.exists_cons_of_ne_nil
    (show acc.reverse ≠ [] by simpa using hne)
  have hmem : ∀ x ∈ a :: g, x ∈ acc := by
    intro x hx
    exact List.mem_reverse.mp (by rw [hag]; exact hx)
  have hhom' : ∀ x ∈ a :: g, etype x = etype a := by
    intro x hx
    exact (hhom x (hmem x hx)).trans (hhom a (hmem a (List.mem_cons_self _ _))).symm
  rw [hag, hf a g hhom', hhom a (hmem a (List.mem_cons_self _ _))]

lemma groupTypedChainAux_count_none {α β : Type} (time : α → ℚ)
    (etype : α → String) (w : ℚ) (f : List α → β) (tyb : β → String) (T : String)
    (hf : ∀ (a : α) (g : List α), (∀ x ∈ a :: g, etype x = etype a) →
      tyb (f (a :: g)) = etype a) :
    ∀ (pending : List α) (lastE : α) (acc : List α), acc ≠ [] →
      (∀ x ∈ acc, etype x = etype lastE) →
      (∀ x ∈ acc, etype x ≠ T) →
      (∀ x ∈ pending, etype x ≠ T) →
      ((groupTypedChainAux time etype w f pending lastE acc).filter
        (fun g => tyb g == T)).length = 0 := by
  intro pending
  induction pending with
  | nil =>
    intro lastE acc hne hhom haccT _
    have htyb := groupAcc_type etype f tyb hf lastE acc hne hhom
    obtain ⟨a, ha⟩ := List.exists_mem_of_ne_nil acc hne
    have hlt : etype lastE ≠ T := by
      rw [← hhom a ha]
      exact haccT a ha
    have hbeq : (tyb (f acc.reverse) == T) = false := by
      simp [htyb, beq_iff_eq, hlt]
    simp [groupTypedChainAux, List.filter_cons, hbeq]
  | cons e rest ih =>
    intro lastE acc hne hhom haccT hpendT
    simp only [groupTypedChainAux]
    split
    · next hc =>
      apply ih e (e :: acc) (by simp) ?_ ?_
        (fun x hx => hpendT x (List.mem_cons_of_mem _ hx))
      · intro x hx
        rcases List.mem_cons.mp hx with rfl | hx'
        · rfl
        · exact (hhom x hx').trans hc.2.symm
      · intro x hx
        rcases List.mem_cons.mp hx with rfl | hx'
        · exact hpendT x (List.mem_cons_self _ _)
        · exact haccT x hx'
    · next hc =>
      have htyb := groupAcc_type etype f tyb hf lastE acc hne hhom
      obtain ⟨a, ha⟩ := List.exists_mem_of_ne_nil acc hne
      have hlt : etype lastE ≠ T := by
        rw [← hhom a ha]
        exact haccT a ha
      have h0 := ih e [e] (by simp)
        (by intro x hx; rw [List.mem_singleton] at hx; rw [hx])
        (by intro x hx
            rw [List.mem_singleton] at hx
            rw [hx]
            exact hpendT e (List.mem_cons_self _ _))
        (fun x hx => hpendT x (List.mem_cons_of_mem _ hx))
      have hbeq : (tyb (f acc.reverse) == T) = false := by
        simp [htyb, beq_iff_eq, hlt]
      simp [List.filter_cons, hbeq, h0]

lemma groupTypedChainAux_count_one {α β : Type} (time : α → ℚ)
    (etype : α → String) (w : ℚ) (f : List α → β) (tyb : β → String) (T : String)
    (hf : ∀ (a : α) (g : List α), (∀ x ∈ a :: g, etype x = etype a) →
      tyb (f (a :: g)) = etype a) :
    ∀ (pending : List α) (lastE : α) (acc : List α), acc ≠ [] →
      (∀ x ∈ acc, etype x = etype lastE) →
      ((acc ++ pending).filter (fun x => etype x == T)).length = 1 →
      ((groupTypedChainAux time etype w f pending lastE acc).filter
        (fun g => tyb g == T)).length = 1 := by
  intro pending
  induction pending with
  | nil =>
    intro lastE acc hne hhom hcnt
    have htyb := groupAcc_type etype f tyb hf lastE acc hne hhom
    have hex : ∃ x ∈ acc, (etype x == T) = true := by
      by_contra hno
      push_neg at hno
      have hnil : acc.filter (fun x => etype x == T) = [] :=
        List.filter_eq_nil.mpr (fun x hx => by simpa using hno x hx)
      rw [List.append_nil, hnil] at hcnt
      simp at hcnt
    obtain ⟨x, hx, hxT⟩ := hex
    have hlT : etype lastE = T := by
      rw [← hhom x hx]
      exact eq_of_beq hxT
    have hbeq : (tyb (f acc.reverse) == T) = true := by
      simp [htyb, beq_iff_eq, hlT]
    simp [groupTypedChainAux, List.filter_cons, hbeq]
  | cons e rest ih =>
    intro lastE acc hne hhom hcnt
    simp only [groupTypedChainAux]
    split
    · next hc =>
      apply ih e (e :: acc) (by simp) ?_ ?_
      · intro x hx
        rcases List.mem_cons.mp hx with rfl | hx'
        · rfl
        · exact (hhom x hx').trans hc.2.symm
      · have h1 : (((e :: acc) ++ rest).filter (fun x => etype x == T)).length
            = ((acc ++ (e :: rest)).filter (fun x => etype x == T)).length := by
          simp only [List.filter_append, List.length_append, List.filter_cons]
          by_cases hpe : (etype e == T) = true <;> simp [hpe] <;> omega
        rw [h1]
        exact hcnt
    · next hc =>
      have htyb := groupAcc_type etype f tyb hf lastE acc hne hhom
      by_cases hlT : etype lastE = T
      · have haccfil : acc.filter (fun x => etype x == T) = acc := by
          apply List.filter_eq_self.mpr
          intro x hx
          simp [beq_iff_eq, (hhom x hx).trans hlT]
        have hlen1 : acc.length +
            ((e :: rest).filter (fun x => etype x == T)).length = 1 := by
          have h := hcnt
          rw [List.filter_append, List.length_append, haccfil] at h
          exact h
        have haccpos : 0 < acc.length := List.length_pos.mpr hne
        have hrest0 : ((e :: rest).filter (fun x => etype x == T)).length = 0 := by
          omega
        have hnoT : ∀ x ∈ e :: rest, etype x ≠ T := by
          intro x hx hxe
          have hnil : (e :: rest).filter (fun x => etype x == T) = [] :=
            List.length_eq_zero.mp hrest0
          have := List.filter_eq_nil.mp hnil x hx
          simp [beq_iff_eq] at this
          exact this hxe
        have h0 := groupTypedChainAux_count_none time etype w f tyb T hf rest e [e]
          (by simp) (by intro x hx; rw [List.mem_singleton] at hx; rw [hx])
          (by intro x hx
              rw [List.mem_singleton] at hx
              rw [hx]
              exact hnoT e (List.mem_cons_self _ _))
          (fun x hx => hnoT x (List.mem_cons_of_mem _ hx))
        have hbeq : (tyb (f acc.reverse) == T) = true := by
          simp [htyb, beq_iff_eq, hlT]
        simp [List.filter_cons, hbeq, h0]
      · have hacc0 : acc.filter (fun x => etype x == T) = [] := by
          apply List.filter_eq_nil.mpr
          intro x hx
          simp only [beq_iff_eq]
          rw [hhom x hx]
          exact hlT
        have hcnt' : ((e :: rest).filter (fun x => etype x == T)).length = 1 := by
          have h := hcnt
          rw [List.filter_append, List.length_append, hacc0] at h
          simpa using h
        have h1 := ih e [e] (by simp)
          (by intro x hx; rw [List.mem_singleton] at hx; rw [hx])
          (by simpa using hcnt')
        have hbeq : (tyb (f acc.reverse) == T) = false := by
          simp [htyb, beq_iff_eq, hlT]
        simp [List.filter_cons, hbeq, h1]

lemma groupEventsByTimeAndType_count_one {α β : Type} (time : α → ℚ)
    (etype : α → String) (w : ℚ) (f : List α → β) (tyb : β → String) (T : String)
    (hf : ∀ (a : α) (g : List α), (∀ x ∈ a :: g, etype x = etype a) →
      tyb (f (a :: g)) = etype a)
    (events : List α)
    (hone : (events.filter (fun x => etype x == T)).length = 1) :
    ((groupEventsByTimeAndType time etype events w f).filter
      (fun g => tyb g == T)).length = 1 := by
  have hs : ((sortByTime time events).filter (fun x => etype x == T)).length = 1 := by
    rw [length_filter_sortByTime]
    exact hone
  unfold groupEventsByTimeAndType
  cases hsort : sortByTime time events with
  | nil => rw [hsort] at hs; simp at hs
  | cons e rest =>
    rw [hsort] at hs
    exact groupTypedChainAux_count_one time etype w f tyb T hf rest e [e]
      (by simp) (by intro x hx; rw [List.mem_singleton] at hx; rw [hx])
      (by simpa using hs)

/-- Exactly one raw `stuck_low` event yields exactly one grouped `stuck_low`
event (typed grouping only merges equal types, so the unique raw record
forms its own group). -/
lemma groupIAMEvents_count_one (events : List IamRawEvent)
    (hone : (events.filter (fun e => e.eventType == "stuck_low")).length = 1) :
    ((groupIAMEvents events).filter
      (fun e => e.eventType == "stuck_low")).length = 1 := by
  unfold groupIAMEvents
  exact groupEventsByTimeAndType_count_one (fun e : IamRawEvent => e.time)
    (fun e : IamRawEvent => e.eventType) iamGroupingTimeWindow
    iamCreateGroupedEvent (fun g : IamGroupedEvent => g.eventType) "stuck_low"
    (fun a g hq => by
      show (mostNegativeBy (fun e : IamRawEvent => e.iam) a g).eventType =
        a.eventType
      exact hq _ (mostNegativeBy_mem _ _ _))
    events hone

/-- The analyzer reports `stuckLowEvents = 0` when the scan emitted no raw
`stuck_low` record. -/
lemma iamAnalyzeResolved_stat_zero (iamInit : ℚ) (r0 : IamRow) (rs : List IamRow)
    (tr : ℚ × ℚ) (kt : Option (List ℚ)) (c : Option String)
    (hfilt : (iamScan iamInit (r0 :: rs)).events.filter
      (fun e => e.eventType == "stuck_low") = []) :
    (iamAnalyzeResolved (r0 :: rs) tr (some iamInit) kt c).map
      (fun res => res.statistics.stuckLowEvents) = some 0 := by
  have hraw : ∀ e ∈ (iamScan iamInit (r0 :: rs)).events,
      e.eventType ≠ "stuck_low" := by
    intro e he
    have := List.filter_eq_nil.mp hfilt e he
    simpa using this
  have hnil : (groupIAMEvents (iamScan iamInit (r0 :: rs)).events).filter
      (fun e => e.eventType == "stuck_low") = [] := by
    apply List.filter_eq_nil.mpr
    intro gE hgE
    simpa using groupIAMEvents_no_stuck _ hraw gE hgE
  rw [iamAnalyzeResolved_stuckLowEvents]
  simp only [Option.getD_some]
  rw [hnil]
  rfl

/-- The analyzer reports `stuckLowEvents = 1` when the scan emitted exactly
one raw `stuck_low` record. -/
lemma iamAnalyzeResolved_stat_one (iamInit : ℚ) (r0 : IamRow) (rs : List IamRow)
    (tr : ℚ × ℚ) (kt : Option (List ℚ)) (c : Option String) (r : IamRawEvent)
    (hfilt : (iamScan iamInit (r0 :: rs)).events.filter
      (fun e => e.eventType == "stuck_low") = [r]) :
    (iamAnalyzeResolved (r0 :: rs) tr (some iamInit) kt c).map
      (fun res => res.statistics.stuckLowEvents) = some 1 := by
  have hone : ((iamScan iamInit (r0 :: rs)).events.filter
      (fun e => e.eventType == "stuck_low")).length = 1 := by
    rw [hfilt]
    rfl
  rw [iamAnalyzeResolved_stuckLowEvents]
  simp only [Option.getD_some]
  rw [groupIAMEvents_count_one _ hone]

/-- C9 (amended): for a log consisting of a run of consecutive valid IAM
samples staying below the 0.30 low threshold followed by a valid sample at
or above it, the analyzer reports exactly one `stuck_low` event — distinct
from the per-sample low-IAM classifications — iff the recovering sample lies
at least 5 s after the run's start, and reports none otherwise; the unique
raw record's `time` is the run's start and its `endTime` the recovering
sample's time.  A run still below the threshold at the end of the log
reports no `stuck_low` event however long it lasted. -/
theorem iam_stuck_low_reporting (iamInit : ℚ) (tr : ℚ × ℚ)
    (kt : Option (List ℚ)) (c : Option String) (l0 : IamRow)
    (lrest : List IamRow) (rec : IamRow)
    (hlows : ∀ r ∈ l0 :: lrest, 0 < iamNormalize r.iamRaw ∧
      iamNormalize r.iamRaw < iamLowThreshold)
    (hpos : 0 < iamNormalize rec.iamRaw)
    (hhigh : ¬ iamNormalize rec.iamRaw < iamLowThreshold) :
    ((iamAnalyzeResolved ((l0 :: lrest) ++ [rec]) tr (some iamInit) kt c).map
        (fun res => res.statistics.stuckLowEvents) =
      some (if iamStuckLowThreshold ≤ rec.time - l0.time then 1 else 0)) ∧
    (iamStuckLowThreshold ≤ rec.time - l0.time →
      ∃ r : IamRawEvent,
        (iamScan iamInit ((l0 :: lrest) ++ [rec])).events.filter
            (fun e => e.eventType == "stuck_low") = [r] ∧
        r.time = l0.time ∧ r.endTime = some rec.time ∧
        r.eventType = "stuck_low") ∧
    (¬ iamStuckLowThreshold ≤ rec.time - l0.time →
      (iamScan iamInit ((l0 :: lrest) ++ [rec])).events.filter
        (fun e => e.eventType == "stuck_low") = []) ∧
    (iamAnalyzeResolved (l0 :: lrest) tr (some iamInit) kt c).map
      (fun res => res.statistics.stuckLowEvents) = some 0 := by
  have hsplit : iamScan iamInit ((l0 :: lrest) ++ [rec]) =
      iamStep (iamScan iamInit (l0 :: lrest)) (l0 :: lrest).length rec := by
    simp only [iamScan, List.enum]
    rw [List.enumFrom_append, List.foldl_append]
    simp [List.enumFrom]
  obtain ⟨hss, hfilt⟩ := iamScan_all_below iamInit l0 lrest hlows
  have hend := iamAnalyzeResolved_stat_zero iamInit l0 lrest tr kt c hfilt
  by_cases hdur : iamStuckLowThreshold ≤ rec.time - l0.time
  · obtain ⟨r, hr, ht, he, hty⟩ := iamStep_recovery (iamScan iamInit (l0 :: lrest))
      (l0 :: lrest).length rec l0.time hpos hhigh hss hdur
    have hone : (iamScan iamInit ((l0 :: lrest) ++ [rec])).events.filter
        (fun e => e.eventType == "stuck_low") = [r] := by
      rw [hsplit, hr, hfilt]
      rfl
    refine ⟨?_, fun _ => ⟨r, hone, ht, he, hty⟩, fun hnd => absurd hdur hnd, hend⟩
    rw [if_pos hdur]
    exact iamAnalyzeResolved_stat_one iamInit l0 (lrest ++ [rec]) tr kt c r hone
  · have hzero : (iamScan iamInit ((l0 :: lrest) ++ [rec])).events.filter
        (fun e => e.eventType == "stuck_low") = [] := by
      rw [hsplit, iamStep_recovery_short (iamScan iamInit (l0 :: lrest))
        (l0 :: lrest).length rec l0.time hpos hhigh hss hdur, hfilt]
    refine ⟨?_, fun hd => absurd hd hdur, fun _ => hzero, hend⟩
    rw [if_neg hdur]
    exact iamAnalyzeResolved_stat_zero iamInit l0 (lrest ++ [rec]) tr kt c hzero

/-- Counterexample for C9 as stated: IAM stays continuously below the 0.30
threshold for 6 s (≥ 5 s) through the end of the log, yet the analyzer
reports zero `stuck_low` events (the event is only emitted when a sample at
or above the threshold follows the run). -/
theorem iam_stuck_low_counterexample :
    (6 : ℚ) - 0 ≥ iamStuckLowThreshold ∧
    (iamLowRows.all fun r => decide (0 < iamNormalize r.iamRaw) &&
        decide (iamNormalize r.iamRaw < iamLowThreshold)) = true ∧
    (iamAnalyzeResolved iamLowRows (0, 6) none none
        (some "Ignition Advance Multiplier")).map
      (fun res => res.statistics.stuckLowEvents) = some 0 := by
  have hlows : ∀ r ∈ iamLowRows, 0 < iamNormalize r.iamRaw ∧
      iamNormalize r.iamRaw < iamLowThreshold := by
    intro r hr
    fin_cases hr <;>
      exact ⟨by norm_num [iamLowRow, iamNormalize],
        by norm_num [iamLowRow, iamNormalize, iamLowThreshold]⟩
  refine ⟨by norm_num [iamStuckLowThreshold], ?_, ?_⟩
  · simp only [List.all_eq_true, Bool.and_eq_true, decide_eq_true_eq]
    intro r hr
    exact ⟨(hlows r hr).1, (hlows r hr).2⟩
  · have hfilt := (iamScan_all_below iamInitDefault (iamLowRow 0)
      [iamLowRow 1, iamLowRow 2, iamLowRow 3, iamLowRow 4, iamLowRow 5, iamLowRow 6]
      hlows).2
    have hraw : ∀ e ∈ (iamScan iamInitDefault iamLowRows).events,
        e.eventType ≠ "stuck_low" := by
      intro e he
      have := List.filter_eq_nil.mp hfilt e he
      simpa using this
    have hgrp := groupIAMEvents_no_stuck _ hraw
    have hnil : (groupIAMEvents (iamScan iamInitDefault iamLowRows).events).filter
        (fun e => e.eventType == "stuck_low") = [] := by
      apply List.filter_eq_nil.mpr
      intro gE hgE
      simpa using hgrp gE hgE
    simp only [iamLowRows] at hnil ⊢
    rw [iamAnalyzeResolved_stuckLowEvents]
    rw [show (none : Option ℚ).getD iamInitDefault = iamInitDefault from rfl]
    rw [hnil]
    rfl

/-- Witness for C9 (amended): six low samples over 5 s followed by a
recovered sample at 5.5 s yield exactly one stuck-low record spanning the
run. -/
def iamRecRow : IamRow :=
  { time := 11/2, iamRaw := 4/5, rpm := 3000, throttle := 20, load := 1,
    knockRetard := 0 }

theorem iam_stuck_low_reporting_witness :
    (0 : ℚ) < iamNormalize iamRecRow.iamRaw ∧
    ¬ iamNormalize iamRecRow.iamRaw < iamLowThreshold ∧
    (((iamAnalyzeResolved ((iamLowRow 0 :: [iamLowRow 1, iamLowRow 2, iamLowRow 3,
            iamLowRow 4, iamLowRow 5]) ++ [iamRecRow]) (0, 6) (some iamInitDefault)
          none (some "Ignition Advance Multiplier")).map
        (fun res => res.statistics.stuckLowEvents) =
      some (if iamStuckLowThreshold ≤ iamRecRow.time - (iamLowRow 0).time then 1
        else 0)) ∧
    (iamStuckLowThreshold ≤ iamRecRow.time - (iamLowRow 0).time →
      ∃ r : IamRawEvent,
        (iamScan iamInitDefault ((iamLowRow 0 :: [iamLowRow 1, iamLowRow 2,
            iamLowRow 3, iamLowRow 4, iamLowRow 5]) ++ [iamRecRow])).events.filter
            (fun e => e.eventType == "stuck_low") = [r] ∧
        r.time = (iamLowRow 0).time ∧ r.endTime = some iamRecRow.time ∧
        r.eventType = "stuck_low") ∧
    (¬ iamStuckLowThreshold ≤ iamRecRow.time - (iamLowRow 0).time →
      (iamScan iamInitDefault ((iamLowRow 0 :: [iamLowRow 1, iamLowRow 2,
          iamLowRow 3, iamLowRow 4, iamLowRow 5]) ++ [iamRecRow])).events.filter
        (fun e => e.eventType == "stuck_low") = []) ∧
    (iamAnalyzeResolved (iamLowRow 0 :: [iamLowRow 1, iamLowRow 2, iamLowRow 3,
        iamLowRow 4, iamLowRow 5]) (0, 6) (some iamInitDefault) none
        (some "Ignition Advance Multiplier")).map
      (fun res => res.statistics.stuckLowEvents) = some 0) :=
  ⟨by norm_num [iamRecRow, iamNormalize],
    by norm_num [iamRecRow, iamNormalize, iamLowThreshold],
    iam_stuck_low_reporting iamInitDefault (0, 6) none
      (some "Ignition Advance Multiplier") (iamLowRow 0)
      [iamLowRow 1, iamLowRow 2, iamLowRow 3, iamLowRow 4, iamLowRow 5] iamRecRow
      (by intro r hr
          fin_cases hr <;>
            exact ⟨by norm_num [iamLowRow, iamNormalize],
              by norm_num [iamLowRow, iamNormalize, iamLowThreshold]⟩)
      (by norm_num [iamRecRow, iamNormalize])
      (by norm_num [iamRecRow, iamNormalize, iamLowThreshold])⟩

/-! ### Issue Compiler (logScoreTab.js `compileAllIssues`)

The compile pass reads each analyzer's cached grouped events and maps them to
a common `Issue` shape.  The per-source input shapes below carry exactly the
fields `compileAllIssues` reads (fields guarded by `!== undefined && !== null`
become `Option ℚ` with `getD 0`); the free-text `description` and the
`originalEvent` back-reference are omitted as they carry no logic. -/

structure KnockIssueEvent where
  time : ℚ
  knockRetard : Option ℚ
  severity : Option String

structure BoostIssueEvent where
  time : ℚ
  eventType : String
  boostTarget : Option ℚ
  actualBoost : Option ℚ
  boostError : Option ℚ

structure AfrIssueEvent where
  time : ℚ
  eventType : String
  targetAFR : Option ℚ
  measuredAFR : Option ℚ
  afrError : Option ℚ

structure StftIssueEvent where
  time : ℚ
  eventType : String
  shortTermTrim : Option ℚ

structure LtftIssueEvent where
  time : ℚ
  eventType : String
  longTermTrim : Option ℚ

structure IamIssueEvent where
  time : ℚ
  eventType : String
  severity : String
  iam : Option ℚ

structure LoadLimitIssueEvent where
  time : ℚ
  eventType : String
  severity : String
  load : Option ℚ
  loadLimit : Option ℚ
  loadRatio : Option ℚ
  fuelCut : Bool

structure CoolantIssueEvent where
  time : ℚ
  eventType : String
  severity : String
  coolantTemp : Option ℚ
  aboveHighSpeedFan : Bool

structure IatIssueEvent where
  time : ℚ
  eventType : String
  severity : String
  iat : Option ℚ
  aboveHighThreshold : Bool
  belowLowThreshold : Bool

/-- The common Issue shape (time, source, sourceId, eventType, severity,
value, valueUnit). -/
structure Issue where
  time : ℚ
  source : String
  sourceId : String
  eventType : String
  severity : String
  value : ℚ
  valueUnit : String

/-- `kPaToPSI` closure: 1 kPa = 0.1450377377 PSI. -/
def kPaToPSI (kpa : ℚ) : ℚ := kpa * (1450377377 / 10000000000)

/-- `AFR_CONVERSION_FACTOR = 14.7` (1 lambda = 14.7 AFR). -/
def afrConversionFactorIssue : ℚ := 147 / 10

def knockIssueOf (e : KnockIssueEvent) : Issue :=
  { time := e.time, source := "Knock Analysis", sourceId := "knock",
    eventType := "Knock", severity := "high",
    value := e.knockRetard.getD 0, valueUnit := "°" }

/-- Section 1 of `compileAllIssues`: every knock event is compiled, severity
forced to `high`. -/
def compileKnockIssues (events : List KnockIssueEvent) : List Issue :=
  events.map knockIssueOf

def boostIssueOf (e : BoostIssueEvent) : Issue :=
  let isOvershoot := e.eventType == "overshoot"
  { time := e.time, source := "Boost Control", sourceId := "boost",
    eventType := if isOvershoot then "Overshoot" else "Undershoot",
    severity := if isOvershoot then "high" else "low",
    value := kPaToPSI |e.boostError.getD 0|, valueUnit := "PSI" }

def compileBoostIssues (events : List BoostIssueEvent) : List Issue :=
  (events.filter (fun e => !(e.eventType == "normal"))).map boostIssueOf

/-- `percentDeviation` of the AFR section: lambda values are converted to AFR
(zeroed when non-positive) and the deviation is the AFR-space error as a
percentage of the converted target, 0 when the converted target is not
positive. -/
def afrPercentDeviation (e : AfrIssueEvent) : ℚ :=
  let targetLambda := e.targetAFR.getD 0
  let measuredLambda := e.measuredAFR.getD 0
  let targetAFR := if 0 < targetLambda then targetLambda * afrConversionFactorIssue else 0
  let measuredAFR := if 0 < measuredLambda then measuredLambda * afrConversionFactorIssue else 0
  let errorAFR := measuredAFR - targetAFR
  if 0 < targetAFR then errorAFR / targetAFR * 100 else 0

/-- AFR severity: lean events start `high`, rich `low`; a lean event with a
positive target lambda whose absolute percent deviation is within 5% is
downgraded to `low`. -/
def afrIssueSeverity (e : AfrIssueEvent) : String :=
  let isLean := e.eventType == "lean"
  let targetLambda := e.targetAFR.getD 0
  let base := if isLean then "high" else "low"
  if isLean ∧ 0 < targetLambda then
    if |afrPercentDeviation e| ≤ 5 then "low" else base
  else base

def afrIssueOf (e : AfrIssueEvent) : Issue :=
  let isLean := e.eventType == "lean"
  { time := e.time, source := "Air/Fuel Ratio", sourceId := "afr",
    eventType := if isLean then "Lean" else "Rich",
    severity := afrIssueSeverity e,
    value := afrPercentDeviation e, valueUnit := "%" }

def compileAfrIssues (events : List AfrIssueEvent) : List Issue :=
  (events.filter (fun e => !(e.eventType == "normal"))).map afrIssueOf

def stftIssueOf (e : StftIssueEvent) : Issue :=
  let isPositive := e.eventType == "positive"
  { time := e.time, source := "Short Term Fuel Trim", sourceId := "fueltrim",
    eventType := if isPositive then "Positive Trim" else "Negative Trim",
    severity := if isPositive then "high" else "low",
    value := e.shortTermTrim.getD 0, valueUnit := "%" }

/-- Section 4: short-term-trim issues are compiled only when the toggle is
on; no event-type filter is applied. -/
def compileStftIssues (showTrim : Bool) (events : List StftIssueEvent) : List Issue :=
  if showTrim then events.map stftIssueOf else []

def ltftIssueOf (e : LtftIssueEvent) : Issue :=
  let isPositive := e.eventType == "positive"
  { time := e.time, source := "Long Term Fuel Trim", sourceId := "longtermfueltrim",
    eventType := if isPositive then "Positive Trim" else "Negative Trim",
    severity := if isPositive then "high" else "low",
    value := e.longTermTrim.getD 0, valueUnit := "%" }

def compileLtftIssues (events : List LtftIssueEvent) : List Issue :=
  events.map ltftIssueOf

def iamIssueOf (e : IamIssueEvent) : Issue :=
  { time := e.time, source := "IAM Analysis", sourceId := "iam",
    eventType := if e.eventType == "stuck_low" then "IAM Stuck Low" else "IAM Drop",
    severity := if e.severity == "critical" then "severe"
      else if e.severity == "severe" then "high" else "low",
    value := e.iam.getD 0 * 100, valueUnit := "%" }

def compileIamIssues (events : List IamIssueEvent) : List Issue :=
  (events.filter (fun e => !(e.eventType == "normal"))).map iamIssueOf

def loadLimitIssueOf (e : LoadLimitIssueEvent) : Issue :=
  { time := e.time, source := "Load Limit", sourceId := "loadlimit",
    eventType := if e.eventType == "limit_violation" then "Load Limit Violation"
      else "Near Load Limit",
    severity := if e.severity == "critical" then "severe"
      else if e.severity == "severe" then "high" else "low",
    value := e.load.getD 0, valueUnit := "g/rev" }

def compileLoadLimitIssues (events : List LoadLimitIssueEvent) : List Issue :=
  (events.filter (fun e => !(e.eventType == "normal"))).map loadLimitIssueOf

def coolantIssueOf (e : CoolantIssueEvent) : Issue :=
  { time := e.time, source := "Coolant Temperature", sourceId := "coolanttemp",
    eventType := if e.eventType == "high_temp" then "High Temperature"
      else "Elevated Temperature",
    severity := if e.severity == "critical" then "severe"
      else if e.severity == "severe" then "high"
      else if e.severity == "moderate" then "moderate" else "low",
    value := e.coolantTemp.getD 0, valueUnit := "°C" }

def compileCoolantIssues (events : List CoolantIssueEvent) : List Issue :=
  (events.filter (fun e => !(e.eventType == "normal"))).map coolantIssueOf

def iatIssueOf (e : IatIssueEvent) : Issue :=
  { time := e.time, source := "Intake Air Temperature", sourceId := "iat",
    eventType := if e.eventType == "high_temp" then "High IAT" else "Low IAT",
    severity := if e.severity == "critical" then "severe"
      else if e.severity == "severe" then "high"
      else if e.severity == "moderate" then "moderate"
      else if e.severity == "mild" then "low" else "low",
    value := e.iat.getD 0, valueUnit := "°C" }

def compileIatIssues (events : List IatIssueEvent) : List Issue :=
  (events.filter (fun e => !(e.eventType == "normal"))).map iatIssueOf

/-- Full compile pass: the nine per-source sections concatenated in source
order, then sorted by time. -/
def compileAllIssues (knock : List KnockIssueEvent) (boost : List BoostIssueEvent)
    (afr : List AfrIssueEvent) (stft : List StftIssueEvent)
    (ltft : List LtftIssueEvent) (iam : List IamIssueEvent)
    (loadlimit : List LoadLimitIssueEvent) (coolant : List CoolantIssueEvent)
    (iat : List IatIssueEvent) (showTrim : Bool) : List Issue :=
  sortByTime (fun i : Issue => i.time)
    (compileKnockIssues knock ++ compileBoostIssues boost ++ compileAfrIssues afr ++
      compileStftIssues showTrim stft ++ compileLtftIssues ltft ++
      compileIamIssues iam ++ compileLoadLimitIssues loadlimit ++
      compileCoolantIssues coolant ++ compileIatIssues iat)

/-- C8: every Issue produced by a compile pass has severity in the 4-level
scale {severe, high, low, mild}; every knock event is mapped to severity
`high` regardless of its original severity; and every AFR lean event with a
positive target lambda whose deviation from target is within 5% is assigned
severity `low`.  The temperature analyzers' code is absent from `src/`, so
their events' severity vocabularies are modelled from the spec (§4.7):
coolant severities are `warning`/`critical` and intake severities are
`low`/`high`/`critical` — these appear as the hypotheses `hcool`/`hiat`
(the compiler's literal `moderate` pass-through branches are unreachable
under them). -/
theorem issue_compiler_severity_scale
    (knock : List KnockIssueEvent) (boost : List BoostIssueEvent)
    (afr : List AfrIssueEvent) (stft : List StftIssueEvent)
    (ltft : List LtftIssueEvent) (iam : List IamIssueEvent)
    (loadlimit : List LoadLimitIssueEvent) (coolant : List CoolantIssueEvent)
    (iat : List IatIssueEvent) (showTrim : Bool)
    (hcool : ∀ e ∈ coolant, e.severity = "warning" ∨ e.severity = "critical")
    (hiat : ∀ e ∈ iat, e.severity = "low" ∨ e.severity = "high" ∨
      e.severity = "critical") :
    (∀ issue ∈ compileAllIssues knock boost afr stft ltft iam loadlimit coolant
        iat showTrim,
      issue.severity = "severe" ∨ issue.severity = "high" ∨
        issue.severity = "low" ∨ issue.severity = "mild") ∧
    (∀ issue ∈ compileAllIssues knock boost afr stft ltft iam loadlimit coolant
        iat showTrim,
      issue.sourceId = "knock" → issue.severity = "high") ∧
    (∀ e : AfrIssueEvent, e.eventType = "lean" → 0 < e.targetAFR.getD 0 →
      |afrPercentDeviation e| ≤ 5 → (afrIssueOf e).severity = "low") := by
  have hmemsplit : ∀ issue ∈ compileAllIssues knock boost afr stft ltft iam
      loadlimit coolant iat showTrim,
      issue ∈ compileKnockIssues knock ∨ issue ∈ compileBoostIssues boost ∨
      issue ∈ compileAfrIssues afr ∨ issue ∈ compileStftIssues showTrim stft ∨
      issue ∈ compileLtftIssues ltft ∨ issue ∈ compileIamIssues iam ∨
      issue ∈ compileLoadLimitIssues loadlimit ∨
      issue ∈ compileCoolantIssues coolant ∨ issue ∈ compileIatIssues iat := by
    intro issue hmem
    unfold compileAllIssues at hmem
    rw [mem_sortByTime] at hmem
    simpa [List.mem_append, or_assoc] using hmem
  refine ⟨?_, ?_, ?_⟩
  · intro issue hmem
    rcases hmemsplit issue hmem with h | h | h | h | h | h | h | h | h
    · simp only [compileKnockIssues, List.mem_map] at h
      obtain ⟨e, _, rfl⟩ := h
      simp [knockIssueOf]
    · simp only [compileBoostIssues, List.mem_map, List.mem_filter] at h
      obtain ⟨e, _, rfl⟩ := h
      simp only [boostIssueOf]
      split <;> simp
    · simp only [compileAfrIssues, List.mem_map, List.mem_filter] at h
      obtain ⟨e, _, rfl⟩ := h
      simp only [afrIssueOf, afrIssueSeverity]
      split_ifs <;> simp
    · simp only [compileStftIssues] at h
      split at h
      · simp only [List.mem_map] at h
        obtain ⟨e, _, rfl⟩ := h
        simp only [stftIssueOf]
        split <;> simp
      · simp at h
    · simp only [compileLtftIssues, List.mem_map] at h
      obtain ⟨e, _, rfl⟩ := h
      simp only [ltftIssueOf]
      split <;> simp
    · simp only [compileIamIssues, List.mem_map, List.mem_filter] at h
      obtain ⟨e, _, rfl⟩ := h
      simp only [iamIssueOf]
      split_ifs <;> simp
    · simp only [compileLoadLimitIssues, List.mem_map, List.mem_filter] at h
      obtain ⟨e, _, rfl⟩ := h
      simp only [loadLimitIssueOf]
      split_ifs <;> simp
    · simp only [compileCoolantIssues, List.mem_map, List.mem_filter] at h
      obtain ⟨e, hee, rfl⟩ := h
      rcases hcool e hee.1 with hs | hs <;> simp [coolantIssueOf, hs]
    · simp only [compileIatIssues, List.mem_map, List.mem_filter] at h
      obtain ⟨e, hee, rfl⟩ := h
      rcases hiat e hee.1 with hs | hs | hs <;> simp [iatIssueOf, hs]
  · intro issue hmem hsid
    rcases hmemsplit issue hmem with h | h | h | h | h | h | h | h | h
    · simp only [compileKnockIssues, List.mem_map] at h
      obtain ⟨e, _, rfl⟩ := h
      simp [knockIssueOf]
    · simp only [compileBoostIssues, List.mem_map, List.mem_filter] at h
      obtain ⟨e, _, rfl⟩ := h
      simp [boostIssueOf] at hsid
    · simp only [compileAfrIssues, List.mem_map, List.mem_filter] at h
      obtain ⟨e, _, rfl⟩ := h
      simp [afrIssueOf] at hsid
    · simp only [compileStftIssues] at h
      split at h
      · simp only [List.mem_map] at h
        obtain ⟨e, _, rfl⟩ := h
        simp [stftIssueOf] at hsid
      · simp at h
    · simp only [compileLtftIssues, List.mem_map] at h
      obtain ⟨e, _, rfl⟩ := h
      simp [ltftIssueOf] at hsid
    · simp only [compileIamIssues, List.mem_map, List.mem_filter] at h
      obtain ⟨e, _, rfl⟩ := h
      simp [iamIssueOf] at hsid
    · simp only [compileLoadLimitIssues, List.mem_map, List.mem_filter] at h
      obtain ⟨e, _, rfl⟩ := h
      simp [loadLimitIssueOf] at hsid
    · simp only [compileCoolantIssues, List.mem_map, List.mem_filter] at h
      obtain ⟨e, _, rfl⟩ := h
      simp [coolantIssueOf] at hsid
    · simp only [compileIatIssues, List.mem_map, List.mem_filter] at h
      obtain ⟨e, _, rfl⟩ := h
      simp [iatIssueOf] at hsid
  · intro e hlean hpos hble
    have hl : (e.eventType == "lean") = true := by simp [hlean]
    simp [afrIssueOf, afrIssueSeverity, hl, hpos, hble]

/-- Concrete inputs for the C8 witness: one knock event, one lean AFR event
within 5% deviation, one warning coolant event, one critical intake event. -/
def knockIssueEventW : KnockIssueEvent :=
  { time := 1, knockRetard := some (-3), severity := some "severe" }

def afrIssueEventW : AfrIssueEvent :=
  { time := 2, eventType := "lean", targetAFR := some 1,
    measuredAFR := some (51/50), afrError := some (1/50) }

def coolantIssueEventW : CoolantIssueEvent :=
  { time := 3, eventType := "high_temp", severity := "warning",
    coolantTemp := some 105, aboveHighSpeedFan := false }

def iatIssueEventW : IatIssueEvent :=
  { time := 4, eventType := "high_temp", severity := "critical",
    iat := some 70, aboveHighThreshold := true, belowLowThreshold := false }

theorem issue_compiler_severity_scale_witness :
    (∀ e ∈ [coolantIssueEventW], e.severity = "warning" ∨
      e.severity = "critical") ∧
    (∀ e ∈ [iatIssueEventW], e.severity = "low" ∨ e.severity = "high" ∨
      e.severity = "critical") ∧
    ((∀ issue ∈ compileAllIssues [knockIssueEventW] [] [afrIssueEventW] [] [] []
        [] [coolantIssueEventW] [iatIssueEventW] true,
      issue.severity = "severe" ∨ issue.severity = "high" ∨
        issue.severity = "low" ∨ issue.severity = "mild") ∧
    (∀ issue ∈ compileAllIssues [knockIssueEventW] [] [afrIssueEventW] [] [] []
        [] [coolantIssueEventW] [iatIssueEventW] true,
      issue.sourceId = "knock" → issue.severity = "high") ∧
    (∀ e : AfrIssueEvent, e.eventType = "lean" → 0 < e.targetAFR.getD 0 →
      |afrPercentDeviation e| ≤ 5 → (afrIssueOf e).severity = "low")) :=
  ⟨by simp [coolantIssueEventW],
    by simp [iatIssueEventW],
    issue_compiler_severity_scale [knockIssueEventW] [] [afrIssueEventW] [] []
      [] [] [coolantIssueEventW] [iatIssueEventW] true
      (by simp [coolantIssueEventW]) (by simp [iatIssueEventW])⟩

end LogAnalysis
